import Mathlib

/-!
# Si5351 driver and TWI transport of the ADX-MINI firmware

A shallow embedding of firmware/version-1/src/si5351.cpp (the arithmetic of
`select_r_div`, `pll_calc` and `multisynth_calc`, and the register-level
operations of `class Si5351`) and of firmware/MI3/i2c.cpp (the TWI
transport).

Conventions of the embedding.
* `uint64_t`, `uint32_t` and `uint8_t` values are natural numbers; every C++
  operation that can wrap is followed by an explicit reduction modulo `2^64`,
  `2^32` or `2^8`.
* `int32_t` values are integers in `[-2^31, 2^31)`.
* A division or remainder whose divisor is zero is undefined behaviour in
  C++; functions in which a divisor can be zero return `Option`, with `none`
  standing for that case.
* Stateful code passes its state explicitly.
-/

namespace Si5351

/-! ## Constants of si5351.h -/

def SI5351_XTAL_FREQ : Nat := 25000000
def SI5351_PLL_FIXED : Nat := 80000000000
def SI5351_FREQ_MULT : Nat := 100
def SI5351_PLL_VCO_MIN : Nat := 600000000
def SI5351_PLL_VCO_MAX : Nat := 900000000
def SI5351_MULTISYNTH_MIN_FREQ : Nat := 500000
def SI5351_MULTISYNTH_DIVBY4_FREQ : Nat := 150000000
def SI5351_MULTISYNTH_MAX_FREQ : Nat := 225000000
def SI5351_CLKOUT_MIN_FREQ : Nat := 4000
def SI5351_PLL_A_MIN : Nat := 15
def SI5351_PLL_A_MAX : Nat := 90
def SI5351_MULTISYNTH_A_MIN : Nat := 6
def SI5351_MULTISYNTH_A_MAX : Nat := 1800
def SI5351_MULTISYNTH_P1_MAX : Nat := 2 ^ 18 - 1
def SI5351_MULTISYNTH_P2_MAX : Nat := 2 ^ 20 - 1
def SI5351_MULTISYNTH_P3_MAX : Nat := 2 ^ 20 - 1
def SI5351_OUTPUT_CLK_DIV_1 : Nat := 0
def SI5351_OUTPUT_CLK_DIV_2 : Nat := 1
def SI5351_OUTPUT_CLK_DIV_4 : Nat := 2
def SI5351_OUTPUT_CLK_DIV_8 : Nat := 3
def SI5351_OUTPUT_CLK_DIV_16 : Nat := 4
def SI5351_OUTPUT_CLK_DIV_32 : Nat := 5
def SI5351_OUTPUT_CLK_DIV_64 : Nat := 6
def SI5351_OUTPUT_CLK_DIV_128 : Nat := 7
def RFRAC_DENOM : Nat := 1000000

/-- Number of values of a `uint32_t`. -/
def U32 : Nat := 4294967296

/-- Number of values of a `uint64_t`. -/
def U64 : Nat := 18446744073709551616

/-- The register fields `struct Si5351RegSet`. -/
structure Si5351RegSet where
  p1 : Nat
  p2 : Nat
  p3 : Nat
deriving DecidableEq, Repr

/-! ## select_r_div -/

/-- `Si5351::select_r_div`: the returned exponent and the value left in `*freq`. -/
def select_r_div (freq : Nat) : Nat × Nat :=
  let m := SI5351_CLKOUT_MIN_FREQ * SI5351_FREQ_MULT
  if m ≤ freq ∧ freq < m * 2 then (SI5351_OUTPUT_CLK_DIV_128, freq * 128 % U64)
  else if m * 2 ≤ freq ∧ freq < m * 4 then (SI5351_OUTPUT_CLK_DIV_64, freq * 64 % U64)
  else if m * 4 ≤ freq ∧ freq < m * 8 then (SI5351_OUTPUT_CLK_DIV_32, freq * 32 % U64)
  else if m * 8 ≤ freq ∧ freq < m * 16 then (SI5351_OUTPUT_CLK_DIV_16, freq * 16 % U64)
  else if m * 16 ≤ freq ∧ freq < m * 32 then (SI5351_OUTPUT_CLK_DIV_8, freq * 8 % U64)
  else if m * 32 ≤ freq ∧ freq < m * 64 then (SI5351_OUTPUT_CLK_DIV_4, freq * 4 % U64)
  else if m * 64 ≤ freq ∧ freq < m * 128 then (SI5351_OUTPUT_CLK_DIV_2, freq * 2 % U64)
  else (SI5351_OUTPUT_CLK_DIV_1, freq)

/-! ## pll_calc -/

/-- The correction term of `pll_calc`:
`(int32_t)((((((int64_t)corr) << 31) / 1000000000LL) * ref_freq) >> 31)`.
The shift of the `int64_t` is a multiplication by `2^31` (it does not leave
the `int64_t` range for an `int32_t` argument), `/` truncates toward zero,
the product with the `uint64_t` `ref_freq` is taken modulo `2^64`, `>> 31` is a
logical shift of that `uint64_t`, and the cast keeps the low 32 bits, read as
a signed 32-bit value. -/
def corr_term (ref_freq : Nat) (corr : Int) : Int :=
  let q : Int := Int.tdiv (corr * 2147483648) 1000000000
  let prod : Nat := (q % (U64 : Int)).toNat * ref_freq % U64
  let low : Nat := prod / 2147483648 % U32
  if low < 2147483648 then (low : Int) else (low : Int) - (U32 : Int)

/-- The reference frequency after the correction line of `pll_calc`:
`ref_freq = ref_freq + (int32_t)(...)` in `uint64_t` arithmetic, where
`ref_freq` was `xtal_freq[ref_osc] * SI5351_FREQ_MULT`. -/
def corrected_ref (xtal : Nat) (corr : Int) : Nat :=
  let ref_freq := xtal * SI5351_FREQ_MULT % U64
  (((ref_freq : Int) + corr_term ref_freq corr) % (U64 : Int)).toNat

/-- The PLL bounds check of `pll_calc` (lines 298-303). -/
def pll_clamp (freq : Nat) : Nat :=
  let f := if freq < SI5351_PLL_VCO_MIN * SI5351_FREQ_MULT then
    SI5351_PLL_VCO_MIN * SI5351_FREQ_MULT else freq
  if f > SI5351_PLL_VCO_MAX * SI5351_FREQ_MULT then
    SI5351_PLL_VCO_MAX * SI5351_FREQ_MULT else f

/-- The local `a` of `pll_calc`: `a = freq / ref_freq`, stored in a `uint32_t`.
It is not assigned again after this line. -/
def pll_a (ref_freq freq : Nat) : Nat :=
  pll_clamp freq / ref_freq % U32

/-- The value of `freq` after the two tests on `a` (lines 306-311). -/
def pll_adjust (ref_freq freq : Nat) : Nat :=
  let a := pll_a ref_freq freq
  let f := if a < SI5351_PLL_A_MIN then ref_freq * SI5351_PLL_A_MIN % U64 else pll_clamp freq
  if a > SI5351_PLL_A_MAX then ref_freq * SI5351_PLL_A_MAX % U64 else f

/-- The local `b` of `pll_calc` (both branches compute the same value, as
`RFRAC_DENOM` is `1000000ULL`). -/
def pll_b (ref_freq freq : Nat) : Nat :=
  (pll_adjust ref_freq freq % ref_freq) * RFRAC_DENOM % U64 / ref_freq % U32

/-- The local `c` of `pll_calc`. -/
def pll_c (ref_freq freq : Nat) (vcxo : Bool) : Nat :=
  if vcxo then 1000000 else if pll_b ref_freq freq ≠ 0 then RFRAC_DENOM else 1

/-- The field `p1 = 128 * a + ((128 * b) / c) - 512` in `uint32_t` arithmetic. -/
def calc_p1 (a b c : Nat) : Nat :=
  (128 * a % U32 + (128 * b % U32) / c + (U32 - 512)) % U32

/-- The field `p2 = 128 * b - c * ((128 * b) / c)` in `uint32_t` arithmetic. -/
def calc_p2 (b c : Nat) : Nat :=
  (128 * b % U32 + (U32 - c * ((128 * b % U32) / c) % U32)) % U32

/-- `Si5351::pll_calc`, with `xtal` the value of `xtal_freq[ref_osc]` of the
selected PLL: the fields stored through `reg` and the returned value.
`c` is never zero, and for the crystal value that `init` stores
(`SI5351_XTAL_FREQ`) the corrected `ref_freq` is shown non-zero below
(`corrected_ref_pos`), so no division here has a zero divisor. -/
def pll_calc (xtal freq : Nat) (corr : Int) (vcxo : Bool) : Si5351RegSet × Nat :=
  let ref_freq := corrected_ref xtal corr
  let a := pll_a ref_freq freq
  let b := pll_b ref_freq freq
  let c := pll_c ref_freq freq vcxo
  let p1 := calc_p1 a b c
  let p2 := calc_p2 b c
  let p3 := c
  let lltmp := ref_freq * b % U64 / c
  let freq2 := (lltmp + ref_freq * a % U64) % U64
  (⟨p1, p2, p3⟩, if vcxo then (128 * a % U32 * 1000000 % U64 + b) % U64 else freq2)

/-! ## multisynth_calc -/

/-- The bounds check of `multisynth_calc` (lines 346-351). -/
def ms_clamp (freq : Nat) : Nat :=
  let f := if freq > SI5351_MULTISYNTH_MAX_FREQ * SI5351_FREQ_MULT then
    SI5351_MULTISYNTH_MAX_FREQ * SI5351_FREQ_MULT else freq
  if f < SI5351_MULTISYNTH_MIN_FREQ * SI5351_FREQ_MULT then
    SI5351_MULTISYNTH_MIN_FREQ * SI5351_FREQ_MULT else f

/-- The flag `divby4` of `multisynth_calc` (line 352). -/
def ms_divby4 (freq : Nat) : Bool :=
  decide (SI5351_MULTISYNTH_DIVBY4_FREQ * SI5351_FREQ_MULT ≤ ms_clamp freq)

/-- The local `a` of the branch `pll_freq == 0` (lines 358-370). -/
def ms_auto_a (freq : Nat) : Nat :=
  if ms_divby4 freq = false then
    let lltmp := SI5351_PLL_VCO_MAX * SI5351_FREQ_MULT / ms_clamp freq
    let lltmp := if lltmp = 5 then 4 else if lltmp = 7 then 6 else lltmp
    lltmp % U32
  else 4

/-- The local `a` of the branch `pll_freq != 0`: `a = pll_freq / freq`, stored
in a `uint32_t`. It is not assigned again after this line. -/
def ms_fixed_a (freq pll_freq : Nat) : Nat :=
  pll_freq / ms_clamp freq % U32

/-- The value of `freq` after the two tests on `a` (lines 379-384). -/
def ms_adjust (freq pll_freq : Nat) : Nat :=
  let a := ms_fixed_a freq pll_freq
  let f := if a < SI5351_MULTISYNTH_A_MIN then pll_freq / SI5351_MULTISYNTH_A_MIN
    else ms_clamp freq
  if a > SI5351_MULTISYNTH_A_MAX then pll_freq / SI5351_MULTISYNTH_A_MAX else f

/-- The local `b` of the branch `pll_freq != 0` (line 385), for a non-zero
adjusted `freq`. -/
def ms_fixed_b (freq pll_freq : Nat) : Nat :=
  (pll_freq % ms_adjust freq pll_freq) * RFRAC_DENOM % U64 / ms_adjust freq pll_freq % U32

/-- The fields written through `reg` (lines 389-400). -/
def ms_fields (divby4 : Bool) (a b c : Nat) : Si5351RegSet :=
  if divby4 then ⟨0, 0, 1⟩ else ⟨calc_p1 a b c, calc_p2 b c, c⟩

/-- `Si5351::multisynth_calc`: the fields stored through `reg` and the
returned value; `none` when line 385 divides by a zero `freq`. -/
def multisynth_calc (freq pll_freq : Nat) : Option (Si5351RegSet × Nat) :=
  let divby4 := ms_divby4 freq
  if pll_freq = 0 then
    let a := ms_auto_a freq
    some (ms_fields divby4 a 0 1, a * ms_clamp freq % U64)
  else
    let a := ms_fixed_a freq pll_freq
    let f := ms_adjust freq pll_freq
    if f = 0 then none
    else
      let b := ms_fixed_b freq pll_freq
      let c := if b ≠ 0 then RFRAC_DENOM else 1
      some (ms_fields divby4 a b c, f)

/-! ## The driver state and register access (si5351.cpp, lines 35-280)

The chip is a byte-addressed register map in which a read returns the last
value written and a multi-byte write stores its bytes at consecutive
addresses. Every transaction made through `Wire` is recorded in `bus`. -/

def SI5351_OUTPUT_ENABLE_CTRL : Nat := 3
def SI5351_OEB_PIN_ENABLE_CTRL : Nat := 9
def SI5351_PLL_INPUT_XO : Nat := 0
def SI5351_CLKIN_DIV_1 : Nat := 0
def SI5351_CLK0_CTRL : Nat := 16
def SI5351_CLK_INTEGER_MODE : Nat := 64
def SI5351_CLK_PLL_SELECT : Nat := 32
def SI5351_CLK3_0_DISABLE_STATE : Nat := 24
def SI5351_PLLA_PARAMETERS : Nat := 26
def SI5351_PLLB_PARAMETERS : Nat := 34
def SI5351_CLK0_PARAMETERS : Nat := 42
def SI5351_CLK1_PARAMETERS : Nat := 50
def SI5351_CLK2_PARAMETERS : Nat := 58
def SI5351_OUTPUT_CLK_DIV_SHIFT : Nat := 4
def SI5351_OUTPUT_CLK_DIVBY4 : Nat := 12
def SI5351_CLK0 : Nat := 0
def SI5351_CLK1 : Nat := 1
def SI5351_CLK2 : Nat := 2
def SI5351_VXCO_PARAMETERS_LOW : Nat := 162
def SI5351_VXCO_PARAMETERS_MID : Nat := 163
def SI5351_VXCO_PARAMETERS_HIGH : Nat := 164
def SI5351_PLLA : Nat := 0
def SI5351_PLLB : Nat := 1
def SI5351_PLL_RESET : Nat := 177
def SI5351_PLL_RESET_B : Nat := 128
def SI5351_PLL_RESET_A : Nat := 32
def SI5351_CRYSTAL_LOAD : Nat := 183

/-- One transaction on the bus: a register write of `data` starting at
`addr` (`write_reg`, `write_bulk`), or a register read (`read_reg`). -/
inductive BusOp where
  | write (addr : Nat) (data : List Nat)
  | read (addr : Nat)
deriving DecidableEq, Repr

/-- The members of `class Si5351`, the register map of the chip (`regs`)
and the record of the bus transactions made so far (`bus`). The arrays
`pll_assignment[3]`, `xtal_freq[2]` and `ref_correction[2]` are functions of
the index. -/
structure Driver where
  regs : Nat → Nat
  bus : List BusOp
  pll_assignment : Nat → Nat
  plla_freq : Nat
  pllb_freq : Nat
  plla_ref_osc : Nat
  pllb_ref_osc : Nat
  xtal_freq : Nat → Nat
  ref_correction : Nat → Int
  clkin_div : Nat

/-- A blank state, used for instances: every register and every member is
zero. -/
def blank : Driver :=
  { regs := fun _ => 0, bus := [], pll_assignment := fun _ => 0, plla_freq := 0,
    pllb_freq := 0, plla_ref_osc := 0, pllb_ref_osc := 0, xtal_freq := fun _ => 0,
    ref_correction := fun _ => 0, clkin_div := 0 }

/-- The register map after the bytes `data` have been stored at the
consecutive addresses `addr`, `addr + 1`, ... -/
def store (regs : Nat → Nat) (addr : Nat) : List Nat → Nat → Nat
  | [] => regs
  | d :: ds => store (Function.update regs addr d) (addr + 1) ds

/-- `Si5351::write_bulk(addr, bytes, data)`, with `bytes` the length of
`data`: one transaction. -/
def write_bulk (addr : Nat) (data : List Nat) (s : Driver) : Driver :=
  { s with regs := store s.regs addr data, bus := s.bus ++ [BusOp.write addr data] }

/-- `Si5351::write_reg(addr, data)`: one transaction with one data byte. -/
def write_reg (addr data : Nat) (s : Driver) : Driver :=
  { s with regs := Function.update s.regs addr data, bus := s.bus ++ [BusOp.write addr [data]] }

/-- `Si5351::read_reg(addr)`: the `uint8_t` read and the state afterwards. -/
def read_reg (addr : Nat) (s : Driver) : Nat × Driver :=
  (s.regs addr % 256, { s with bus := s.bus ++ [BusOp.read addr] })

/-- `x &= ~(m)` for a `uint8_t` value `x` and a mask `m` below 256. -/
def clear8 (x m : Nat) : Nat := x &&& (255 - m)

/-- A loop `for (i = lo; i < hi; i++) body(i)`. -/
def for_loop (lo hi : Nat) (body : Nat → Driver → Driver) (s : Driver) : Driver :=
  (List.range' lo (hi - lo)).foldl (fun t i => body i t) s

/-- The eight parameter bytes that `set_pll` builds (lines 99-120). -/
def pll_params (r : Si5351RegSet) : List Nat :=
  [ (r.p3 >>> 8) &&& 0xFF,
    r.p3 &&& 0xFF,
    (r.p1 >>> 16) &&& 0x03,
    (r.p1 >>> 8) &&& 0xFF,
    r.p1 &&& 0xFF,
    (((r.p3 >>> 12) &&& 0xF0) + ((r.p2 >>> 16) &&& 0x0F)) % 256,
    (r.p2 >>> 8) &&& 0xFF,
    r.p2 &&& 0xFF ]

/-- `Si5351::set_pll(pll_freq, target_pll)`. The value returned by `pll_calc`
is not used, and the member `plla_freq` or `pllb_freq` receives the
argument `pll_freq`. -/
def set_pll (pll_freq target_pll : Nat) (s : Driver) : Driver :=
  let pll_reg :=
    if target_pll = SI5351_PLLA then
      (pll_calc (s.xtal_freq s.plla_ref_osc) pll_freq (s.ref_correction s.plla_ref_osc) false).1
    else
      (pll_calc (s.xtal_freq s.pllb_ref_osc) pll_freq (s.ref_correction s.pllb_ref_osc) false).1
  let params := pll_params pll_reg
  if target_pll = SI5351_PLLA then
    { write_bulk SI5351_PLLA_PARAMETERS params s with plla_freq := pll_freq }
  else if target_pll = SI5351_PLLB then
    { write_bulk SI5351_PLLB_PARAMETERS params s with pllb_freq := pll_freq }
  else s

/-- `Si5351::set_int(clk, enable)`. -/
def set_int (clk enable : Nat) (s : Driver) : Driver :=
  let r := read_reg ((SI5351_CLK0_CTRL + clk) % 256) s
  let reg_val := if enable = 1 then r.1 ||| SI5351_CLK_INTEGER_MODE
    else clear8 r.1 SI5351_CLK_INTEGER_MODE
  write_reg ((SI5351_CLK0_CTRL + clk) % 256) reg_val r.2

/-- `Si5351::ms_div(clk, r_div, div_by_4)`. -/
def ms_div (clk r_div div_by_4 : Nat) (s : Driver) : Driver :=
  let reg_addr :=
    if clk = SI5351_CLK0 then SI5351_CLK0_PARAMETERS + 2
    else if clk = SI5351_CLK1 then SI5351_CLK1_PARAMETERS + 2
    else if clk = SI5351_CLK2 then SI5351_CLK2_PARAMETERS + 2
    else 0
  let r := read_reg reg_addr s
  let reg_val := clear8 r.1 0x7C
  let reg_val := if div_by_4 = 0 then clear8 reg_val SI5351_OUTPUT_CLK_DIVBY4
    else reg_val ||| SI5351_OUTPUT_CLK_DIVBY4
  let reg_val := (reg_val ||| (r_div <<< SI5351_OUTPUT_CLK_DIV_SHIFT)) % 256
  write_reg reg_addr reg_val r.2

/-- The eight parameter bytes that `set_ms` builds (lines 137-160);
`reg_val` is the value read from the third register, low two bits cleared. -/
def ms_params (r : Si5351RegSet) (reg_val : Nat) : List Nat :=
  [ (r.p3 >>> 8) &&& 0xFF,
    r.p3 &&& 0xFF,
    reg_val ||| ((r.p1 >>> 16) &&& 0x03),
    (r.p1 >>> 8) &&& 0xFF,
    r.p1 &&& 0xFF,
    (((r.p3 >>> 12) &&& 0xF0) + ((r.p2 >>> 16) &&& 0x0F)) % 256,
    (r.p2 >>> 8) &&& 0xFF,
    r.p2 &&& 0xFF ]

/-- `Si5351::set_ms(clk, ms_reg, int_mode, r_div, div_by_4)`. -/
def set_ms (clk : Nat) (ms_reg : Si5351RegSet) (int_mode r_div div_by_4 : Nat)
    (s : Driver) : Driver :=
  let r := read_reg ((SI5351_CLK0_PARAMETERS + 2 + clk * 8) % 256) s
  let params := ms_params ms_reg (clear8 r.1 0x03)
  if clk = SI5351_CLK0 then
    ms_div clk r_div div_by_4 (set_int clk int_mode (write_bulk SI5351_CLK0_PARAMETERS params r.2))
  else if clk = SI5351_CLK1 then
    ms_div clk r_div div_by_4 (set_int clk int_mode (write_bulk SI5351_CLK1_PARAMETERS params r.2))
  else if clk = SI5351_CLK2 then
    ms_div clk r_div div_by_4 (set_int clk int_mode (write_bulk SI5351_CLK2_PARAMETERS params r.2))
  else r.2

/-- `Si5351::set_freq(freq, clk)`; `none` when `multisynth_calc` divides by
zero. The value returned by `multisynth_calc` is not used. -/
def set_freq (freq clk : Nat) (s : Driver) : Option Driver :=
  let int_mode := 0
  let div_by_4 := 0
  let r := select_r_div freq
  let pll_freq := if s.pll_assignment clk = SI5351_PLLA then s.plla_freq else s.pllb_freq
  match multisynth_calc r.2 pll_freq with
  | none => none
  | some ms => some (set_ms clk ms.1 int_mode r.1 div_by_4 s)

/-- `Si5351::set_correction(corr, ref_osc)`. -/
def set_correction (corr : Int) (ref_osc : Nat) (s : Driver) : Driver :=
  let s1 := { s with ref_correction := Function.update s.ref_correction ref_osc corr }
  let s2 := set_pll s1.plla_freq SI5351_PLLA s1
  set_pll s2.pllb_freq SI5351_PLLB s2

/-- `Si5351::pll_reset(target_pll)`. -/
def pll_reset (target_pll : Nat) (s : Driver) : Driver :=
  if target_pll = SI5351_PLLA then write_reg SI5351_PLL_RESET SI5351_PLL_RESET_A s
  else if target_pll = SI5351_PLLB then write_reg SI5351_PLL_RESET SI5351_PLL_RESET_B s
  else s

/-- `Si5351::set_ms_source(clk, pll)`. -/
def set_ms_source (clk pll : Nat) (s : Driver) : Driver :=
  let r := read_reg ((SI5351_CLK0_CTRL + clk) % 256) s
  let reg_val :=
    if pll = SI5351_PLLA then clear8 r.1 SI5351_CLK_PLL_SELECT
    else if pll = SI5351_PLLB then r.1 ||| SI5351_CLK_PLL_SELECT
    else r.1
  let s1 := write_reg ((SI5351_CLK0_CTRL + clk) % 256) reg_val r.2
  { s1 with pll_assignment := Function.update s1.pll_assignment clk pll }

/-- `Si5351::init()`. -/
def init (s : Driver) : Driver :=
  let s := { s with xtal_freq := Function.update s.xtal_freq SI5351_PLL_INPUT_XO SI5351_XTAL_FREQ }
  let s := { s with plla_ref_osc := SI5351_PLL_INPUT_XO }
  let s := { s with pllb_ref_osc := SI5351_PLL_INPUT_XO }
  let s := { s with clkin_div := SI5351_CLKIN_DIV_1 }
  let s := write_reg SI5351_CRYSTAL_LOAD 0x92 s
  let s := write_reg SI5351_CLK3_0_DISABLE_STATE 0x00 s
  let s := write_reg SI5351_OEB_PIN_ENABLE_CTRL 0xFF s
  let s := for_loop 16 19 (fun i t => write_reg i 0x80 t) s
  let s := for_loop 16 19 (fun i t => write_reg i 0x0C t) s
  let s := write_reg SI5351_OUTPUT_ENABLE_CTRL 0xFF s
  let s := set_pll SI5351_PLL_FIXED SI5351_PLLA s
  let s := set_pll SI5351_PLL_FIXED SI5351_PLLB s
  let s := for_loop 0 3 (fun i t =>
    set_ms_source i SI5351_PLLA
      { t with pll_assignment := Function.update t.pll_assignment i SI5351_PLLA }) s
  let s := write_reg SI5351_VXCO_PARAMETERS_LOW 0 s
  let s := write_reg SI5351_VXCO_PARAMETERS_MID 0 s
  let s := write_reg SI5351_VXCO_PARAMETERS_HIGH 0 s
  let s := pll_reset SI5351_PLLA s
  pll_reset SI5351_PLLB s

/-- `Si5351::powerDown()`. -/
def powerDown (s : Driver) : Driver :=
  let s := write_reg SI5351_OUTPUT_ENABLE_CTRL 0xff s
  for_loop 16 24 (fun addr t => write_reg addr 0x80 t) s

/-- The fields that a parameter block of eight bytes decodes to, in the
layout the chip reads: `p3 = ((byte5 & 0xF0) << 12) | (byte0 << 8) | byte1`,
`p1 = ((byte2 & 0x03) << 16) | (byte3 << 8) | byte4` and
`p2 = ((byte5 & 0x0F) << 16) | (byte6 << 8) | byte7`. This is the reading side
of `pll_params` and `ms_params`; the driver itself has no such function. -/
def decode_params (b : List Nat) : Si5351RegSet :=
  { p1 := (((b.getD 2 0 &&& 0x03) <<< 16) ||| (b.getD 3 0 <<< 8)) ||| b.getD 4 0,
    p2 := (((b.getD 5 0 &&& 0x0F) <<< 16) ||| (b.getD 6 0 <<< 8)) ||| b.getD 7 0,
    p3 := (((b.getD 5 0 &&& 0xF0) <<< 12) ||| (b.getD 0 0 <<< 8)) ||| b.getD 1 0 }

end Si5351

/-! # The TWI transport (firmware/MI3/i2c.cpp)

The status register `TWSR` is an input: `TWSR n` is its value when the `n`-th
blocking wait of the transport completes, and it keeps that value for the
rest of the call that waited. The writes to the registers `TWCR` and `TWDR`
are recorded in `log`. -/

namespace I2C

/-! ## Constants of i2c.h -/

def START : Nat := 0x08
def REPEATED_START : Nat := 0x10
def MT_SLA_ACK : Nat := 0x18
def MT_SLA_NACK : Nat := 0x20
def MT_DATA_ACK : Nat := 0x28
def MT_DATA_NACK : Nat := 0x30
def MR_SLA_ACK : Nat := 0x40
def MR_SLA_NACK : Nat := 0x48
def MR_DATA_ACK : Nat := 0x50
def MR_DATA_NACK : Nat := 0x58
def LOST_ARBTRTN : Nat := 0x38

/-- `SLA_W(address)`, passed as a `uint8_t`. -/
def SLA_W (address : Nat) : Nat := (address <<< 1) % 256

/-- `SLA_R(address)`, passed as a `uint8_t`. -/
def SLA_R (address : Nat) : Nat := ((address <<< 1) + 0x01) % 256

/-- The bit numbers of `TWCR` that i2c.cpp takes from the AVR device header,
which is not part of the sources: a parameter of the transport. -/
structure TwiBits where
  TWINT : Nat
  TWEA : Nat
  TWSTA : Nat
  TWSTO : Nat
  TWEN : Nat

/-- The bit numbers of the ATmega328P, used for instances. -/
def atmega328p : TwiBits :=
  { TWINT := 7, TWEA := 6, TWSTA := 5, TWSTO := 4, TWEN := 2 }

/-- A write to one of the two TWI registers that the transport assigns. -/
inductive TwiWrite where
  | TWCR (v : Nat)
  | TWDR (v : Nat)
deriving DecidableEq, Repr

/-- The TWI registers as last written, the number of completed waits and the
record of the register writes. -/
structure Twi where
  TWCR : Nat
  TWDR : Nat
  waits : Nat
  log : List TwiWrite
deriving DecidableEq, Repr

/-- The assignment `TWCR = v`. -/
def setTWCR (v : Nat) (s : Twi) : Twi :=
  { s with TWCR := v, log := s.log ++ [TwiWrite.TWCR v] }

/-- The assignment `TWDR = v`. -/
def setTWDR (v : Nat) (s : Twi) : Twi :=
  { s with TWDR := v, log := s.log ++ [TwiWrite.TWDR v] }

/-- `TWI_STATUS`, that is `TWSR & 0xF8`, at the wait in progress. -/
def TWI_STATUS (TWSR : Nat → Nat) (s : Twi) : Nat := TWSR s.waits &&& 0xF8

/-- The loop `while (!(TWCR & (1<<TWINT)));` has completed. -/
def waited (s : Twi) : Twi := { s with waits := s.waits + 1 }

/-- `I2C::lockUp()`. -/
def lockUp (k : TwiBits) (s : Twi) : Twi :=
  setTWCR ((1 <<< k.TWEN) ||| (1 <<< k.TWEA)) (setTWCR 0 s)

/-- `I2C::stop()`: the returned value and the state afterwards. -/
def stop (k : TwiBits) (s : Twi) : Nat × Twi :=
  (0, setTWCR ((1 <<< k.TWINT) ||| (1 <<< k.TWEN) ||| (1 <<< k.TWSTO)) s)

/-- `I2C::start()`. -/
def start (k : TwiBits) (TWSR : Nat → Nat) (s : Twi) : Nat × Twi :=
  let s1 := setTWCR ((1 <<< k.TWINT) ||| (1 <<< k.TWSTA) ||| (1 <<< k.TWEN)) s
  let st := TWI_STATUS TWSR s1
  let s2 := waited s1
  if st = START ∨ st = REPEATED_START then (0, s2)
  else if st = LOST_ARBTRTN then (st, lockUp k s2)
  else (st, s2)

/-- `I2C::sendAddress(i2cAddress)`. -/
def sendAddress (k : TwiBits) (TWSR : Nat → Nat) (i2cAddress : Nat) (s : Twi) : Nat × Twi :=
  let s1 := setTWCR ((1 <<< k.TWINT) ||| (1 <<< k.TWEN)) (setTWDR i2cAddress s)
  let st := TWI_STATUS TWSR s1
  let s2 := waited s1
  if st = MT_SLA_ACK ∨ st = MR_SLA_ACK then (0, s2)
  else if st = MT_SLA_NACK ∨ st = MR_SLA_NACK then (st, (stop k s2).2)
  else (st, lockUp k s2)

/-- `I2C::sendByte(i2cData)`. -/
def sendByte (k : TwiBits) (TWSR : Nat → Nat) (i2cData : Nat) (s : Twi) : Nat × Twi :=
  let s1 := setTWCR ((1 <<< k.TWINT) ||| (1 <<< k.TWEN)) (setTWDR i2cData s)
  let st := TWI_STATUS TWSR s1
  let s2 := waited s1
  if st = MT_DATA_ACK then (0, s2)
  else if st = MT_DATA_NACK then (st, (stop k s2).2)
  else (st, lockUp k s2)

/-- `I2C::write(address, registerAddress, data)`, the overload for one data
byte. The values returned by the transport calls are not used. -/
def write (k : TwiBits) (TWSR : Nat → Nat) (address registerAddress data : Nat)
    (s : Twi) : Twi :=
  let s := (start k TWSR s).2
  let s := (sendAddress k TWSR (SLA_W address) s).2
  let s := (sendByte k TWSR registerAddress s).2
  let s := (sendByte k TWSR data s).2
  (stop k s).2

/-- The loop `for (i = 0; i < numberBytes; i++) sendByte(data[i]);`, with
`numberBytes` the length of `data`. -/
def sendBytes (k : TwiBits) (TWSR : Nat → Nat) : List Nat → Twi → Twi
  | [], s => s
  | d :: ds, s => sendBytes k TWSR ds (sendByte k TWSR d s).2

/-- `I2C::write(address, registerAddress, data, numberBytes)`, the overload
for `numberBytes` data bytes. -/
def writeBytes (k : TwiBits) (TWSR : Nat → Nat) (address registerAddress : Nat)
    (data : List Nat) (s : Twi) : Twi :=
  let s := (start k TWSR s).2
  let s := (sendAddress k TWSR (SLA_W address) s).2
  let s := (sendByte k TWSR registerAddress s).2
  let s := sendBytes k TWSR data s
  (stop k s).2

/-- A call of one of the private transport methods. -/
inductive Call where
  | start
  | sendAddress (b : Nat)
  | sendByte (b : Nat)
  | stop
deriving DecidableEq, Repr

/-- The effect of one transport call whose returned value is dropped. -/
def exec (k : TwiBits) (TWSR : Nat → Nat) : Call → Twi → Twi
  | Call.start, s => (start k TWSR s).2
  | Call.sendAddress b, s => (sendAddress k TWSR b s).2
  | Call.sendByte b, s => (sendByte k TWSR b s).2
  | Call.stop, s => (stop k s).2

/-- The effect of a sequence of transport calls, in order. -/
def run (k : TwiBits) (TWSR : Nat → Nat) (calls : List Call) (s : Twi) : Twi :=
  calls.foldl (fun t c => exec k TWSR c t) s

/-- The call sequence of a register write as the specification words it:
start, address-write, byte-write of the register address, byte-write of each
value in order, stop. -/
def write_sequence (address registerAddress : Nat) (data : List Nat) : List Call :=
  [Call.start, Call.sendAddress (SLA_W address), Call.sendByte registerAddress]
    ++ data.map Call.sendByte ++ [Call.stop]

/-- The register writes of the data phase when every byte is acknowledged:
`TWDR = d` and then `TWCR = send` for each byte `d` in order. -/
def data_writes (send : Nat) : List Nat → List TwiWrite
  | [] => []
  | d :: ds => TwiWrite.TWDR d :: TwiWrite.TWCR send :: data_writes send ds

/-- `I2C::begin()`, on the registers of the model. Its other statements
(lines 18-22) set `PORTC` and `TWBR`, which no function of the transport reads,
and clear the prescaler bits of `TWSR`, which `TWI_STATUS` masks off; `Twi`
does not carry them. -/
def begin (k : TwiBits) (s : Twi) : Twi :=
  setTWCR ((1 <<< k.TWEN) ||| (1 <<< k.TWEA)) s

/-- `I2C::receiveByte()`. -/
def receiveByte (k : TwiBits) (TWSR : Nat → Nat) (s : Twi) : Nat × Twi :=
  let s1 := setTWCR ((1 <<< k.TWINT) ||| (1 <<< k.TWEN)) s
  let st := TWI_STATUS TWSR s1
  let s2 := waited s1
  if st = LOST_ARBTRTN then (st, lockUp k s2)
  else (st, s2)

end I2C

namespace Si5351

/-! ## Auxiliary facts: select_r_div -/

/-- The bands of `select_r_div` with the constants evaluated; no product
reaches `2^64`. -/
theorem select_r_div_eq (f : Nat) :
    select_r_div f =
      if 400000 ≤ f ∧ f < 800000 then (7, f * 128)
      else if 800000 ≤ f ∧ f < 1600000 then (6, f * 64)
      else if 1600000 ≤ f ∧ f < 3200000 then (5, f * 32)
      else if 3200000 ≤ f ∧ f < 6400000 then (4, f * 16)
      else if 6400000 ≤ f ∧ f < 12800000 then (3, f * 8)
      else if 12800000 ≤ f ∧ f < 25600000 then (2, f * 4)
      else if 25600000 ≤ f ∧ f < 51200000 then (1, f * 2)
      else (0, f) := by
  simp only [select_r_div, SI5351_CLKOUT_MIN_FREQ, SI5351_FREQ_MULT, U64,
    SI5351_OUTPUT_CLK_DIV_1, SI5351_OUTPUT_CLK_DIV_2, SI5351_OUTPUT_CLK_DIV_4,
    SI5351_OUTPUT_CLK_DIV_8, SI5351_OUTPUT_CLK_DIV_16, SI5351_OUTPUT_CLK_DIV_32,
    SI5351_OUTPUT_CLK_DIV_64, SI5351_OUTPUT_CLK_DIV_128, Nat.reduceMul]
  split_ifs <;> first
    | rfl
    | (simp only [Prod.mk.injEq, true_and]; omega)

/-- Outside every band `select_r_div` returns exponent 0 and keeps `freq`. -/
theorem select_r_div_direct (g : Nat) (h : g < 400000 ∨ 51200000 ≤ g) :
    select_r_div g = (0, g) := by
  rw [select_r_div_eq]
  split_ifs <;> first | rfl | omega

/-! ## Auxiliary facts: pll_calc -/

theorem corr_term_bounds (r : Nat) (corr : Int) :
    -2147483648 ≤ corr_term r corr ∧ corr_term r corr ≤ 2147483647 := by
  unfold corr_term
  simp only [U32]
  split_ifs <;> omega

/-- The corrected reference of the 25 MHz crystal stays within `2^31` of
`2500000000`; in particular it is positive. -/
theorem corrected_ref_bounds (corr : Int) :
    352516352 ≤ corrected_ref SI5351_XTAL_FREQ corr ∧
      corrected_ref SI5351_XTAL_FREQ corr ≤ 4647483647 := by
  have h := corr_term_bounds (SI5351_XTAL_FREQ * SI5351_FREQ_MULT % U64) corr
  unfold corrected_ref
  simp only [SI5351_XTAL_FREQ, SI5351_FREQ_MULT, U64] at h ⊢
  omega

theorem corrected_ref_pos (corr : Int) : 0 < corrected_ref SI5351_XTAL_FREQ corr := by
  have h := corrected_ref_bounds corr
  omega

theorem pll_clamp_bounds (freq : Nat) :
    60000000000 ≤ pll_clamp freq ∧ pll_clamp freq ≤ 90000000000 := by
  unfold pll_clamp
  simp only [SI5351_PLL_VCO_MIN, SI5351_PLL_VCO_MAX, SI5351_FREQ_MULT]
  split_ifs <;> omega

theorem pll_clamp_id (freq : Nat) (hlo : 60000000000 ≤ freq) (hhi : freq ≤ 90000000000) :
    pll_clamp freq = freq := by
  unfold pll_clamp
  simp only [SI5351_PLL_VCO_MIN, SI5351_PLL_VCO_MAX, SI5351_FREQ_MULT]
  split_ifs <;> omega

/-- With the reference in the range reachable from the 25 MHz crystal, the
local `a` is the exact quotient and lies in `[12, 255]`. -/
theorem pll_a_eq (r freq : Nat) (h1 : 352516352 ≤ r) (h2 : r ≤ 4647483647) :
    pll_a r freq = pll_clamp freq / r ∧ 12 ≤ pll_a r freq ∧ pll_a r freq ≤ 255 := by
  have hc := pll_clamp_bounds freq
  have hpos : 0 < r := by omega
  have hle : pll_clamp freq / r ≤ 255 := by
    have : pll_clamp freq / r < 256 := by
      rw [Nat.div_lt_iff_lt_mul hpos]; omega
    omega
  have hge : 12 ≤ pll_clamp freq / r := by
    rw [Nat.le_div_iff_mul_le hpos]; omega
  unfold pll_a
  simp only [U32]
  omega

/-- The local `b` is computed without wrap-around and is below `10^6`. -/
theorem pll_b_eq (r freq : Nat) (h1 : 352516352 ≤ r) (h2 : r ≤ 4647483647) :
    pll_b r freq = (pll_adjust r freq % r) * 1000000 / r ∧ pll_b r freq < 1000000 := by
  have hpos : 0 < r := by omega
  have hm : pll_adjust r freq % r < r := Nat.mod_lt _ hpos
  have hq : (pll_adjust r freq % r) * 1000000 / r < 1000000 := by
    rw [Nat.div_lt_iff_lt_mul hpos]; omega
  unfold pll_b
  simp only [U32, U64, RFRAC_DENOM]
  rw [Nat.mod_eq_of_lt (by omega : pll_adjust r freq % r * 1000000 < 18446744073709551616),
    Nat.mod_eq_of_lt (by omega : pll_adjust r freq % r * 1000000 / r < 4294967296)]
  exact ⟨rfl, hq⟩

/-- The `uint32_t` expression for `p1` does not wrap when `4 ≤ a`. -/
theorem calc_p1_eq (a b c : Nat) (ha : 4 ≤ a) (ha2 : a ≤ 1000000) (hb : b < 1000000) :
    calc_p1 a b c = 128 * a + 128 * b / c - 512 := by
  have hq : 128 * b / c ≤ 128 * b := Nat.div_le_self _ _
  unfold calc_p1
  simp only [U32]
  rw [Nat.mod_eq_of_lt (by omega : 128 * a < 4294967296),
    Nat.mod_eq_of_lt (by omega : 128 * b < 4294967296)]
  generalize 128 * b / c = q at hq ⊢
  omega

/-- The `uint32_t` expression for `p2` is the remainder of `128 * b` by `c`. -/
theorem calc_p2_eq (b c : Nat) (hb : b < 1000000) :
    calc_p2 b c = 128 * b % c := by
  unfold calc_p2
  simp only [U32]
  rw [Nat.mod_eq_of_lt (by omega : 128 * b < 4294967296)]
  have hle : c * (128 * b / c) ≤ 128 * b := Nat.mul_div_le _ _
  have hdm : c * (128 * b / c) + 128 * b % c = 128 * b := Nat.div_add_mod _ _
  rw [Nat.mod_eq_of_lt (by omega : c * (128 * b / c) < 4294967296)]
  generalize c * (128 * b / c) = m at hle hdm ⊢
  generalize 128 * b % c = n at hdm ⊢
  omega

theorem pll_c_cases (r freq : Nat) :
    pll_c r freq false = 1000000 ∨ (pll_c r freq false = 1 ∧ pll_b r freq = 0) := by
  unfold pll_c
  simp only [RFRAC_DENOM, Bool.false_eq_true, if_false]
  split_ifs with h
  · exact Or.inl rfl
  · exact Or.inr ⟨rfl, by simpa using h⟩

/-- What `pll_calc` computes with the 25 MHz crystal and `vcxo = 0`, free of
the reductions modulo `2^32` and `2^64`, none of which takes effect. -/
theorem pll_calc_eq (freq : Nat) (corr : Int) :
    pll_calc SI5351_XTAL_FREQ freq corr false =
      (let r := corrected_ref SI5351_XTAL_FREQ corr
       let a := pll_a r freq
       let b := pll_b r freq
       let c := pll_c r freq false
       (⟨128 * a + 128 * b / c - 512, 128 * b % c, c⟩, r * b / c + r * a)) := by
  have hr := corrected_ref_bounds corr
  have ha := pll_a_eq _ freq hr.1 hr.2
  have hb := pll_b_eq _ freq hr.1 hr.2
  have hrb : corrected_ref SI5351_XTAL_FREQ corr * pll_b (corrected_ref SI5351_XTAL_FREQ corr) freq
      ≤ 4647483647 * 1000000 := Nat.mul_le_mul hr.2 hb.2.le
  have hra : corrected_ref SI5351_XTAL_FREQ corr * pll_a (corrected_ref SI5351_XTAL_FREQ corr) freq
      ≤ 4647483647 * 255 := Nat.mul_le_mul hr.2 ha.2.2
  have hdiv : corrected_ref SI5351_XTAL_FREQ corr * pll_b (corrected_ref SI5351_XTAL_FREQ corr) freq /
      pll_c (corrected_ref SI5351_XTAL_FREQ corr) freq false
      ≤ corrected_ref SI5351_XTAL_FREQ corr * pll_b (corrected_ref SI5351_XTAL_FREQ corr) freq :=
    Nat.div_le_self _ _
  unfold pll_calc
  simp only [Bool.false_eq_true, if_false]
  rw [calc_p1_eq _ _ _ (by omega) (by omega) hb.2, calc_p2_eq _ _ hb.2]
  simp only [U64]
  rw [Nat.mod_eq_of_lt (lt_of_le_of_lt hrb (by norm_num)),
    Nat.mod_eq_of_lt (lt_of_le_of_lt hra (by norm_num)),
    Nat.mod_eq_of_lt (lt_of_le_of_lt (Nat.add_le_add (hdiv.trans hrb) hra) (by norm_num))]

/-! ## Auxiliary facts: multisynth_calc -/

theorem ms_clamp_bounds (freq : Nat) :
    50000000 ≤ ms_clamp freq ∧ ms_clamp freq ≤ 22500000000 := by
  unfold ms_clamp
  simp only [SI5351_MULTISYNTH_MAX_FREQ, SI5351_MULTISYNTH_MIN_FREQ, SI5351_FREQ_MULT]
  split_ifs <;> omega

theorem ms_divby4_eq (freq : Nat) :
    ms_divby4 freq = decide (15000000000 ≤ ms_clamp freq) := by
  unfold ms_divby4
  simp only [SI5351_MULTISYNTH_DIVBY4_FREQ, SI5351_FREQ_MULT]

/-- In fixed-PLL mode the divisor of line 385 is non-zero as soon as
`pll_freq` is at least 6. -/
theorem ms_adjust_pos (freq pll_freq : Nat) (hp : 6 ≤ pll_freq) :
    0 < ms_adjust freq pll_freq := by
  have ht := ms_clamp_bounds freq
  have htpos : 0 < ms_clamp freq := by omega
  unfold ms_adjust
  simp only [SI5351_MULTISYNTH_A_MIN, SI5351_MULTISYNTH_A_MAX]
  split_ifs with h1 h2
  · have hq : 1800 < pll_freq / ms_clamp freq := by
      have := Nat.mod_le (pll_freq / ms_clamp freq) 4294967296
      simp only [ms_fixed_a, U32] at h1
      omega
    have hmul : 1800 * ms_clamp freq ≤ pll_freq :=
      (Nat.le_div_iff_mul_le htpos).1 hq.le
    exact Nat.div_pos (by omega) (by norm_num)
  · exact Nat.div_pos hp (by norm_num)
  · exact htpos

/-- In divide-by-4 mode the fields are `p1 = 0, p2 = 0, p3 = 1` whenever
`pll_freq` is zero (auto-size mode) or at least 6. -/
theorem multisynth_calc_divby4 (freq pll_freq : Nat)
    (h : 15000000000 ≤ ms_clamp freq) (hp : pll_freq = 0 ∨ 6 ≤ pll_freq) :
    ∃ ret, multisynth_calc freq pll_freq = some (⟨0, 0, 1⟩, ret) := by
  have hd : ms_divby4 freq = true := by
    rw [ms_divby4_eq]; exact decide_eq_true h
  unfold multisynth_calc
  rcases hp with rfl | hp
  · simp [hd, ms_fields]
  · have hpos := ms_adjust_pos freq pll_freq hp
    rw [if_neg (by omega), if_neg (by omega)]
    simp [hd, ms_fields]

/-! ## Claims C1 to C10 -/

/-- Claim C1: for every target frequency in `[60000000000, 90000000000]` and
every `int32_t` correction, `pll_calc` with the 25 MHz crystal and `vcxo = 0`
produces fields with `p1 ≤ 262143`, `p2 ≤ 1048575`, `p3 ≤ 1048575` and
`1 ≤ p3`. -/
theorem pll_calc_fields_bounded (freq : Nat) (corr : Int)
    (_hlo : 60000000000 ≤ freq) (_hhi : freq ≤ 90000000000)
    (_hcorr : -2147483648 ≤ corr ∧ corr ≤ 2147483647) :
    (pll_calc SI5351_XTAL_FREQ freq corr false).1.p1 ≤ 262143 ∧
    (pll_calc SI5351_XTAL_FREQ freq corr false).1.p2 ≤ 1048575 ∧
    (pll_calc SI5351_XTAL_FREQ freq corr false).1.p3 ≤ 1048575 ∧
    1 ≤ (pll_calc SI5351_XTAL_FREQ freq corr false).1.p3 := by
  have hr := corrected_ref_bounds corr
  have ha := pll_a_eq _ freq hr.1 hr.2
  have hb := pll_b_eq _ freq hr.1 hr.2
  have hc := pll_c_cases (corrected_ref SI5351_XTAL_FREQ corr) freq
  rw [pll_calc_eq]
  simp only
  rcases hc with hc | ⟨hc, hb0⟩
  · rw [hc]; omega
  · rw [hc, hb0]; omega

/-- Claim C1, instance: target 800 MHz (at the x100 scale) with correction 0. -/
theorem pll_calc_fields_bounded_witness :
    (60000000000 ≤ 80000000000 ∧ 80000000000 ≤ 90000000000 ∧
      ((-2147483648 : Int) ≤ 0 ∧ (0 : Int) ≤ 2147483647)) ∧
    ((pll_calc SI5351_XTAL_FREQ 80000000000 0 false).1.p1 ≤ 262143 ∧
     (pll_calc SI5351_XTAL_FREQ 80000000000 0 false).1.p2 ≤ 1048575 ∧
     (pll_calc SI5351_XTAL_FREQ 80000000000 0 false).1.p3 ≤ 1048575 ∧
     1 ≤ (pll_calc SI5351_XTAL_FREQ 80000000000 0 false).1.p3) :=
  ⟨by decide,
    pll_calc_fields_bounded 80000000000 0 (by decide) (by decide) (by decide)⟩

/-- Claim C2, as stated, fails: with target `8000000000` (80 MHz at the x100
scale), the 25 MHz crystal and correction 0, `pll_calc` does not yield
`a = 32, b = 0, c = 1`, fields `(3584, 0, 1)` and the return value
`8000000000`. -/
theorem pll_calc_8e9_not_ratio_32 :
    ¬ (pll_a (corrected_ref SI5351_XTAL_FREQ 0) 8000000000 = 32 ∧
       pll_b (corrected_ref SI5351_XTAL_FREQ 0) 8000000000 = 0 ∧
       pll_c (corrected_ref SI5351_XTAL_FREQ 0) 8000000000 false = 1 ∧
       pll_calc SI5351_XTAL_FREQ 8000000000 0 false = (⟨3584, 0, 1⟩, 8000000000)) := by
  decide

/-- Claim C2, amended: with target `80000000000` (`SI5351_PLL_FIXED`, 800 MHz
at the x100 scale), the 25 MHz crystal (reference `2500000000`) and correction
0, `pll_calc` yields `a = 32, b = 0, c = 1`, fields `(3584, 0, 1)` and returns
`80000000000`, the requested target; with target `8000000000` the bounds check
first raises the target to `60000000000`, so that `a = 24, b = 0, c = 1`, the
fields are `(2560, 0, 1)` and the return value is `60000000000`. -/
theorem pll_calc_pll_fixed_exact :
    corrected_ref SI5351_XTAL_FREQ 0 = 2500000000 ∧
    (pll_a 2500000000 SI5351_PLL_FIXED = 32 ∧
     pll_b 2500000000 SI5351_PLL_FIXED = 0 ∧
     pll_c 2500000000 SI5351_PLL_FIXED false = 1 ∧
     pll_calc SI5351_XTAL_FREQ SI5351_PLL_FIXED 0 false = (⟨3584, 0, 1⟩, 80000000000)) ∧
    (pll_clamp 8000000000 = 60000000000 ∧
     pll_a 2500000000 8000000000 = 24 ∧
     pll_b 2500000000 8000000000 = 0 ∧
     pll_c 2500000000 8000000000 false = 1 ∧
     pll_calc SI5351_XTAL_FREQ 8000000000 0 false = (⟨2560, 0, 1⟩, 60000000000)) := by
  decide

/-- Claim C3, as stated, fails: at target `61250000000` with correction 0
(reference `2500000000`, `a = 24`, `b = 500000`, fields `(2624, 0, 1000000)`)
the value `ref * a + ref * p2 / p3` is `60000000000`, while `pll_calc` returns
`61250000000`. -/
theorem pll_calc_p2_formula_fails :
    corrected_ref SI5351_XTAL_FREQ 0 * (61250000000 / corrected_ref SI5351_XTAL_FREQ 0) +
      corrected_ref SI5351_XTAL_FREQ 0 * (pll_calc SI5351_XTAL_FREQ 61250000000 0 false).1.p2 /
        (pll_calc SI5351_XTAL_FREQ 61250000000 0 false).1.p3
      ≠ (pll_calc SI5351_XTAL_FREQ 61250000000 0 false).2 := by
  decide

/-- Claim C3, amended: for every target in the VCO range and every `int32_t`
correction, with `a = target / ref` (`ref` the corrected reference) and
`(p1, p2, p3)` the fields `pll_calc` produces, the fields decode to a numerator
`b` with `(p1 + 512 - 128 * a) * p3 + p2 = 128 * b`, and
`ref * a + ref * b / p3` equals the frequency `pll_calc` returns. -/
theorem pll_calc_roundtrip (freq : Nat) (corr : Int)
    (hlo : 60000000000 ≤ freq) (hhi : freq ≤ 90000000000)
    (_hcorr : -2147483648 ≤ corr ∧ corr ≤ 2147483647) :
    ∃ b,
      ((pll_calc SI5351_XTAL_FREQ freq corr false).1.p1 + 512
            - 128 * (freq / corrected_ref SI5351_XTAL_FREQ corr))
          * (pll_calc SI5351_XTAL_FREQ freq corr false).1.p3
        + (pll_calc SI5351_XTAL_FREQ freq corr false).1.p2 = 128 * b ∧
      corrected_ref SI5351_XTAL_FREQ corr * (freq / corrected_ref SI5351_XTAL_FREQ corr)
        + corrected_ref SI5351_XTAL_FREQ corr * b
            / (pll_calc SI5351_XTAL_FREQ freq corr false).1.p3
        = (pll_calc SI5351_XTAL_FREQ freq corr false).2 := by
  have hr := corrected_ref_bounds corr
  have ha := pll_a_eq _ freq hr.1 hr.2
  rw [pll_clamp_id freq hlo hhi] at ha
  refine ⟨pll_b (corrected_ref SI5351_XTAL_FREQ corr) freq, ?_⟩
  rw [pll_calc_eq]
  simp only
  rw [ha.1] at *
  constructor
  · have h512 : 128 * (freq / corrected_ref SI5351_XTAL_FREQ corr) +
        128 * pll_b (corrected_ref SI5351_XTAL_FREQ corr) freq /
          pll_c (corrected_ref SI5351_XTAL_FREQ corr) freq false - 512 + 512
        - 128 * (freq / corrected_ref SI5351_XTAL_FREQ corr)
        = 128 * pll_b (corrected_ref SI5351_XTAL_FREQ corr) freq /
          pll_c (corrected_ref SI5351_XTAL_FREQ corr) freq false := by
      have h12 := ha.2.1
      generalize freq / corrected_ref SI5351_XTAL_FREQ corr = A at h12 ⊢
      generalize 128 * pll_b (corrected_ref SI5351_XTAL_FREQ corr) freq /
          pll_c (corrected_ref SI5351_XTAL_FREQ corr) freq false = Q
      omega
    rw [h512, Nat.mul_comm]
    exact Nat.div_add_mod _ _
  · omega

/-- Claim C3, amended, instance: the target `61250000000` with correction 0. -/
theorem pll_calc_roundtrip_witness :
    (60000000000 ≤ 61250000000 ∧ 61250000000 ≤ 90000000000 ∧
      ((-2147483648 : Int) ≤ 0 ∧ (0 : Int) ≤ 2147483647)) ∧
    ∃ b,
      ((pll_calc SI5351_XTAL_FREQ 61250000000 0 false).1.p1 + 512
            - 128 * (61250000000 / corrected_ref SI5351_XTAL_FREQ 0))
          * (pll_calc SI5351_XTAL_FREQ 61250000000 0 false).1.p3
        + (pll_calc SI5351_XTAL_FREQ 61250000000 0 false).1.p2 = 128 * b ∧
      corrected_ref SI5351_XTAL_FREQ 0 * (61250000000 / corrected_ref SI5351_XTAL_FREQ 0)
        + corrected_ref SI5351_XTAL_FREQ 0 * b
            / (pll_calc SI5351_XTAL_FREQ 61250000000 0 false).1.p3
        = (pll_calc SI5351_XTAL_FREQ 61250000000 0 false).2 :=
  ⟨by decide, pll_calc_roundtrip 61250000000 0 (by decide) (by decide) (by decide)⟩

/-- Claim C4, failing input: with `freq = 150000000000` (divide-by-4 mode) and
`pll_freq = 3`, `multisynth_calc` takes the fixed-PLL branch, sets
`freq = pll_freq / 6 = 0` and then evaluates `pll_freq % freq` at line 385, a
division by zero, before it reaches the divide-by-4 fields. -/
theorem multisynth_calc_divby4_small_pll :
    ms_divby4 150000000000 = true ∧
    ms_fixed_a 150000000000 3 = 0 ∧
    ms_adjust 150000000000 3 = 0 ∧
    multisynth_calc 150000000000 3 = none := by
  decide

/-- Claim C5, as stated, fails: `select_r_div` at `freq = 399999900` does not
return exponent 7 with the frequency replaced by `399999900 * 128`. -/
theorem select_r_div_399999900_not_div_128 :
    select_r_div 399999900 ≠ (SI5351_OUTPUT_CLK_DIV_128, 399999900 * 128) := by
  rw [select_r_div_direct _ (by omega)]
  simp [SI5351_OUTPUT_CLK_DIV_128]

/-- Claim C5, amended: `select_r_div` at `freq = 399999900` returns exponent 0
(`SI5351_OUTPUT_CLK_DIV_1`) and leaves the frequency unchanged, because
`399999900` is not below `51200000`; exponent 7 with the frequency replaced by
`freq * 128` is what it returns on the lowest band, from `400000` to
`799999`. -/
theorem select_r_div_399999900 :
    select_r_div 399999900 = (SI5351_OUTPUT_CLK_DIV_1, 399999900) ∧
    select_r_div 400000 = (SI5351_OUTPUT_CLK_DIV_128, 400000 * 128) ∧
    select_r_div 799999 = (SI5351_OUTPUT_CLK_DIV_128, 799999 * 128) := by
  decide

/-- Claim C6: `select_r_div` is idempotent on its exponent choice: applied to
the frequency it has already scaled, it returns exponent 0 and leaves that
frequency unchanged. -/
theorem select_r_div_idempotent (freq : Nat) :
    select_r_div (select_r_div freq).2 = (SI5351_OUTPUT_CLK_DIV_1, (select_r_div freq).2) := by
  apply select_r_div_direct
  rw [select_r_div_eq freq]
  split_ifs <;> (simp only; omega)

/-- Claim C7: for every `freq` with `400000 ≤ freq < 51200000`, `select_r_div`
returns the smallest `k` in `1..7` with `51200000 ≤ freq * 2^k` and replaces
`freq` by `freq * 2^k`; for every `freq` with `51200000 ≤ freq` it returns
exponent 0 and leaves `freq` unchanged. -/
theorem select_r_div_reference (freq : Nat) (hmin : 400000 ≤ freq) :
    (freq < 51200000 →
      ∃ k, 1 ≤ k ∧ k ≤ 7 ∧ 51200000 ≤ freq * 2 ^ k ∧
        (∀ j, 1 ≤ j → j < k → freq * 2 ^ j < 51200000) ∧
        select_r_div freq = (k, freq * 2 ^ k)) ∧
    (51200000 ≤ freq → select_r_div freq = (0, freq)) := by
  refine ⟨fun hlt => ?_, fun h => select_r_div_direct _ (Or.inr h)⟩
  rw [select_r_div_eq]
  split_ifs
  · refine ⟨7, by omega, by omega, by omega, fun j h1 h2 => ?_, rfl⟩
    interval_cases j <;> omega
  · refine ⟨6, by omega, by omega, by omega, fun j h1 h2 => ?_, rfl⟩
    interval_cases j <;> omega
  · refine ⟨5, by omega, by omega, by omega, fun j h1 h2 => ?_, rfl⟩
    interval_cases j <;> omega
  · refine ⟨4, by omega, by omega, by omega, fun j h1 h2 => ?_, rfl⟩
    interval_cases j <;> omega
  · refine ⟨3, by omega, by omega, by omega, fun j h1 h2 => ?_, rfl⟩
    interval_cases j <;> omega
  · refine ⟨2, by omega, by omega, by omega, fun j h1 h2 => ?_, rfl⟩
    interval_cases j
    omega
  · refine ⟨1, by omega, by omega, by omega, fun j h1 h2 => ?_, rfl⟩
    omega
  · omega

/-- Claim C7, instance: `freq = 3000000` (30 kHz at the x100 scale). -/
theorem select_r_div_reference_witness :
    400000 ≤ 3000000 ∧
    ((3000000 < 51200000 →
      ∃ k, 1 ≤ k ∧ k ≤ 7 ∧ 51200000 ≤ 3000000 * 2 ^ k ∧
        (∀ j, 1 ≤ j → j < k → 3000000 * 2 ^ j < 51200000) ∧
        select_r_div 3000000 = (k, 3000000 * 2 ^ k)) ∧
     (51200000 ≤ 3000000 → select_r_div 3000000 = (0, 3000000))) :=
  ⟨by decide, select_r_div_reference 3000000 (by decide)⟩

/-- Claim C8, failing input: with target `60000000000` and correction
`601000000` the corrected reference is `4002499999` and the ratio is
`a0 = 14 < SI5351_PLL_A_MIN`; `pll_calc` sets `b = 0` but keeps `a = 14`: the
fields are `(128 * 14 - 512, 0, 1)` and the return value is `4002499999 * 14`,
not the fields and the frequency of the clamped ratio 15. -/
theorem pll_calc_ratio_not_clamped :
    corrected_ref SI5351_XTAL_FREQ 601000000 = 4002499999 ∧
    pll_clamp 60000000000 / 4002499999 = 14 ∧
    pll_b 4002499999 60000000000 = 0 ∧
    pll_calc SI5351_XTAL_FREQ 60000000000 601000000 false
      = (⟨128 * 14 - 512, 0, 1⟩, 4002499999 * 14) ∧
    (pll_calc SI5351_XTAL_FREQ 60000000000 601000000 false).1.p1
      ≠ 128 * SI5351_PLL_A_MIN - 512 ∧
    (pll_calc SI5351_XTAL_FREQ 60000000000 601000000 false).2
      ≠ 4002499999 * SI5351_PLL_A_MIN := by
  decide

/-- Claim C9, failing input: with `freq = 14000000000` and
`pll_freq = 80000000000` the ratio is `a0 = 5 < SI5351_MULTISYNTH_A_MIN`;
`multisynth_calc` returns `pll_freq / 6 = 13333333333` but keeps `a = 5`: the
fields are `(128 * 5 - 512, 0, 1)`, which encode the ratio 5, not 6. -/
theorem multisynth_calc_ratio_not_clamped :
    ms_divby4 14000000000 = false ∧
    ms_fixed_a 14000000000 80000000000 = 5 ∧
    multisynth_calc 14000000000 80000000000
      = some (⟨128 * 5 - 512, 0, 1⟩, 80000000000 / 6) ∧
    multisynth_calc 14000000000 80000000000
      ≠ some (⟨128 * SI5351_MULTISYNTH_A_MIN - 512, 0, 1⟩, 80000000000 / 6) := by
  decide

/-- Claim C10: in auto-size mode (`pll_freq = 0`), for every target whose
clamped value `t` is below `15000000000` (it is always at least `50000000`),
`multisynth_calc` chooses `a = 90000000000 / t` with the substitutions 5 to 4
and 7 to 6, uses `b = 0` and `c = 1`, so that the fields are
`(128 * a - 512, 0, 1)`, and returns `a * t`. -/
theorem multisynth_calc_auto (freq : Nat) (ht : ms_clamp freq < 15000000000) :
    50000000 ≤ ms_clamp freq ∧
    multisynth_calc freq 0 =
      some (⟨128 * (if 90000000000 / ms_clamp freq = 5 then 4
                    else if 90000000000 / ms_clamp freq = 7 then 6
                    else 90000000000 / ms_clamp freq) - 512, 0, 1⟩,
            (if 90000000000 / ms_clamp freq = 5 then 4
             else if 90000000000 / ms_clamp freq = 7 then 6
             else 90000000000 / ms_clamp freq) * ms_clamp freq) := by
  have hb := ms_clamp_bounds freq
  refine ⟨hb.1, ?_⟩
  have htpos : 0 < ms_clamp freq := by omega
  have hd : ms_divby4 freq = false := by
    rw [ms_divby4_eq]; exact decide_eq_false (by omega)
  have hq6 : 6 ≤ 90000000000 / ms_clamp freq := by
    rw [Nat.le_div_iff_mul_le htpos]; omega
  have hq1800 : 90000000000 / ms_clamp freq ≤ 1800 := by
    have : 90000000000 / ms_clamp freq < 1801 := by
      rw [Nat.div_lt_iff_lt_mul htpos]; omega
    omega
  have hqt : 90000000000 / ms_clamp freq * ms_clamp freq ≤ 90000000000 :=
    Nat.div_mul_le_self _ _
  have ha : ms_auto_a freq = (if 90000000000 / ms_clamp freq = 5 then 4
      else if 90000000000 / ms_clamp freq = 7 then 6
      else 90000000000 / ms_clamp freq) := by
    unfold ms_auto_a
    simp only [hd, if_true, SI5351_PLL_VCO_MAX, SI5351_FREQ_MULT, U32, Nat.reduceMul]
    apply Nat.mod_eq_of_lt
    split_ifs <;> omega
  unfold multisynth_calc
  rw [if_pos rfl]
  simp only [ha, hd, ms_fields, Bool.false_eq_true, if_false]
  generalize 90000000000 / ms_clamp freq = q at hq6 hq1800 hqt ⊢
  have hale : (if q = 5 then 4 else if q = 7 then 6 else q) ≤ q := by
    split_ifs <;> omega
  have ha6 : 6 ≤ (if q = 5 then 4 else if q = 7 then 6 else q) := by
    split_ifs <;> omega
  generalize (if q = 5 then 4 else if q = 7 then 6 else q) = a at hale ha6 ⊢
  have hat : a * ms_clamp freq ≤ q * ms_clamp freq := Nat.mul_le_mul_right _ hale
  rw [calc_p1_eq a 0 1 (by omega) (by omega) (by norm_num), calc_p2_eq 0 1 (by norm_num)]
  rw [Nat.mod_eq_of_lt (show a * ms_clamp freq < U64 by simp only [U64]; omega)]
  simp

/-- Claim C10, instance: `freq = 1400000000` (14 MHz at the x100 scale), where
`a = 64`, the fields are `(7680, 0, 1)` and the PLL frequency is
`89600000000`. -/
theorem multisynth_calc_auto_witness :
    ms_clamp 1400000000 < 15000000000 ∧
    (50000000 ≤ ms_clamp 1400000000 ∧
     multisynth_calc 1400000000 0 =
      some (⟨128 * (if 90000000000 / ms_clamp 1400000000 = 5 then 4
                    else if 90000000000 / ms_clamp 1400000000 = 7 then 6
                    else 90000000000 / ms_clamp 1400000000) - 512, 0, 1⟩,
            (if 90000000000 / ms_clamp 1400000000 = 5 then 4
             else if 90000000000 / ms_clamp 1400000000 = 7 then 6
             else 90000000000 / ms_clamp 1400000000) * ms_clamp 1400000000)) :=
  ⟨by decide, multisynth_calc_auto 1400000000 (by decide)⟩

/-! ## Auxiliary facts: the correction term -/

/-- The correction term for a non-negative quotient `q = n`. -/
theorem corr_term_core_pos (n : Nat) (hn : n ≤ 1844674406) :
    (if (n * 2500000000 % 18446744073709551616 / 2147483648 % 4294967296) < 2147483648
      then ((n * 2500000000 % 18446744073709551616 / 2147483648 % 4294967296 : Nat) : Int)
      else ((n * 2500000000 % 18446744073709551616 / 2147483648 % 4294967296 : Nat) : Int)
        - 4294967296)
      = (n : Int) * 2500000000 / 2147483648 := by
  have h1 : n * 2500000000 % 18446744073709551616 = n * 2500000000 :=
    Nat.mod_eq_of_lt (by omega)
  have h2 : n * 2500000000 / 2147483648 < 2147483648 := by omega
  have h3 : n * 2500000000 / 2147483648 % 4294967296 = n * 2500000000 / 2147483648 :=
    Nat.mod_eq_of_lt (by omega)
  rw [h1, h3, if_pos h2]
  push_cast
  rfl

/-- The correction term for a negative quotient `q = -m`. -/
theorem corr_term_core_neg (m : Nat) (hm0 : 0 < m) (hm : m ≤ 1844674406) :
    (if ((18446744073709551616 - m) * 2500000000 % 18446744073709551616 / 2147483648
          % 4294967296) < 2147483648
      then (((18446744073709551616 - m) * 2500000000 % 18446744073709551616 / 2147483648
          % 4294967296 : Nat) : Int)
      else (((18446744073709551616 - m) * 2500000000 % 18446744073709551616 / 2147483648
          % 4294967296 : Nat) : Int) - 4294967296)
      = -(m : Int) * 2500000000 / 2147483648 := by
  have h1 : (18446744073709551616 - m) * 2500000000 % 18446744073709551616
      = 18446744073709551616 - m * 2500000000 := by omega
  rw [h1]
  clear h1
  have hM0 : 0 < m * 2500000000 := by omega
  have hM1 : m * 2500000000 ≤ 4611686015000000000 := by omega
  have hcast : -(m : Int) * 2500000000 = -((m * 2500000000 : Nat) : Int) := by push_cast; ring
  rw [hcast]
  generalize m * 2500000000 = M at hM0 hM1 ⊢
  have h2 : (18446744073709551616 - M) / 2147483648
      = 8589934592 - (M + 2147483647) / 2147483648 := by omega
  rw [h2]
  have hc0 : 0 < (M + 2147483647) / 2147483648 := by omega
  have hc1 : (M + 2147483647) / 2147483648 ≤ 2147483648 := by omega
  have hneg : -((M : Nat) : Int) / 2147483648 = -(((M + 2147483647) / 2147483648 : Nat) : Int) := by
    omega
  rw [hneg]
  generalize (M + 2147483647) / 2147483648 = c at hc0 hc1 ⊢
  have h3 : (8589934592 - c) % 4294967296 = 4294967296 - c := by omega
  rw [h3, if_neg (by omega)]
  omega

/-- The truncating quotient `corr * 2^31 / 10^9` in terms of floor division. -/
theorem tdiv_scaled (corr : Int) :
    (0 ≤ corr ∧ Int.tdiv (corr * 2147483648) 1000000000 = corr * 2147483648 / 1000000000) ∨
    (corr < 0 ∧
      Int.tdiv (corr * 2147483648) 1000000000 = -((-corr) * 2147483648 / 1000000000)) := by
  rcases le_or_lt 0 corr with h | h
  · left
    exact ⟨h, Int.tdiv_eq_ediv (by omega) (by norm_num)⟩
  · right
    refine ⟨h, ?_⟩
    have : corr * 2147483648 = -((-corr) * 2147483648) := by ring
    rw [this, Int.neg_tdiv, Int.tdiv_eq_ediv (by omega) (by norm_num)]

/-- Within `|corr| ≤ 858993459` the correction term is the fixed-point product
`floor(q * ref / 2^31)` with `q` the truncated quotient `corr * 2^31 / 10^9`:
neither the 64-bit product nor the cast to `int32_t` wraps. -/
theorem corr_term_eq (corr : Int) (h1 : -858993459 ≤ corr) (h2 : corr ≤ 858993459) :
    corr_term 2500000000 corr
      = Int.tdiv (corr * 2147483648) 1000000000 * 2500000000 / 2147483648 := by
  have hcase := tdiv_scaled corr
  unfold corr_term
  simp only [U64, U32, Nat.cast_ofNat]
  generalize Int.tdiv (corr * 2147483648) 1000000000 = q at hcase ⊢
  rcases hcase with ⟨h0, hq⟩ | ⟨h0, hq⟩
  · obtain ⟨n, rfl⟩ := Int.eq_ofNat_of_zero_le (show 0 ≤ q by omega)
    have hn : n ≤ 1844674406 := by omega
    have ht : ((n : Int) % 18446744073709551616).toNat = n := by omega
    rw [ht]
    exact corr_term_core_pos n hn
  · by_cases hz : q = 0
    · subst hz
      decide
    · obtain ⟨m, rfl⟩ : ∃ m : Nat, q = -(m : Int) := ⟨(-q).toNat, by omega⟩
      have hm : m ≤ 1844674406 := by omega
      have ht : ((-(m : Int)) % 18446744073709551616).toNat = 18446744073709551616 - m := by
        omega
      rw [ht]
      exact corr_term_core_neg m (by omega) hm

/-! ## Auxiliary facts: the numerator of pll_calc -/

/-- The adjusted target of `pll_calc`, by cases on the ratio. -/
theorem pll_adjust_eq (r freq : Nat) (h1 : 352516352 ≤ r) (h2 : r ≤ 4647483647) :
    pll_adjust r freq =
      if 90 < pll_clamp freq / r then r * 90
      else if pll_clamp freq / r < 15 then r * 15
      else pll_clamp freq := by
  have ha := pll_a_eq r freq h1 h2
  unfold pll_adjust
  simp only [SI5351_PLL_A_MIN, SI5351_PLL_A_MAX, U64, ha.1]
  split_ifs <;> first | rfl | omega

/-- The numerator `b` vanishes exactly when the ratio is outside `[15, 90]` or
the remainder of the target is below one millionth of the reference. -/
theorem pll_b_eq_zero_iff (r freq : Nat) (h1 : 352516352 ≤ r) (h2 : r ≤ 4647483647) :
    pll_b r freq = 0 ↔
      (pll_clamp freq / r < 15 ∨ 90 < pll_clamp freq / r ∨
        (pll_clamp freq % r) * 1000000 < r) := by
  have hpos : 0 < r := by omega
  rw [(pll_b_eq r freq h1 h2).1, pll_adjust_eq r freq h1 h2, Nat.div_eq_zero_iff hpos]
  split_ifs with h90 h15
  · simp [h90, hpos]
  · simp [h15, hpos]
  · constructor
    · intro h; exact Or.inr (Or.inr h)
    · rintro (h | h | h)
      · omega
      · omega
      · exact h

/-! ## Auxiliary facts: the driver -/

/-- The exponent returned by `select_r_div` is at most 7. -/
theorem select_r_div_exp_le (freq : Nat) : (select_r_div freq).1 ≤ 7 := by
  rw [select_r_div_eq]
  split_ifs <;> simp

/-- In fixed-PLL mode `multisynth_calc` returns a result as soon as `pll_freq`
is at least 6. -/
theorem multisynth_calc_fixed_some (freq pll_freq : Nat) (hp : 6 ≤ pll_freq) :
    ∃ ms, multisynth_calc freq pll_freq = some ms := by
  have hpos := ms_adjust_pos freq pll_freq hp
  unfold multisynth_calc
  rw [if_neg (by omega), if_neg (by omega)]
  exact ⟨_, rfl⟩

set_option maxRecDepth 100000 in
/-- The byte that `ms_div` leaves in the third parameter register, for every
register value `v`, every `q = p1[17:16]` and every exponent `r` up to 7. -/
theorem ms_div_byte :
    ∀ v : Fin 256, ∀ q : Fin 4, ∀ r : Fin 8,
      ((((clear8 (clear8 (((clear8 v.val 0x03) ||| q.val) % 256) 0x7C) 12) ||| (r.val <<< 4)) % 256)
          >>> 4) &&& 7 = r.val ∧
      (((clear8 (clear8 (((clear8 v.val 0x03) ||| q.val) % 256) 0x7C) 12) ||| (r.val <<< 4)) % 256)
          &&& 3 = q.val ∧
      (((clear8 (clear8 (((clear8 v.val 0x03) ||| q.val) % 256) 0x7C) 12) ||| (r.val <<< 4)) % 256)
          &&& 12 = 0 := by
  decide

/-- What `set_freq` does on a channel `clk ≤ 2` when the cached frequency of
the assigned PLL is at least 6: `multisynth_calc` returns fields, `set_ms`
writes the eight parameter bytes in one transaction at `42 + 8 * clk`, then
`set_int` and `ms_div` update registers `16 + clk` and `44 + 8 * clk`; after
that register `44 + 8 * clk` holds the exponent in bits 6:4, `p1[17:16]` in
bits 1:0 and zero in the DIVBY4 bits 3:2. -/
theorem set_freq_fixed_pll (freq clk : Nat) (s : Driver) (hclk : clk ≤ 2)
    (hp : 6 ≤ (if s.pll_assignment clk = SI5351_PLLA then s.plla_freq else s.pllb_freq)) :
    ∃ ms t, multisynth_calc (select_r_div freq).2
        (if s.pll_assignment clk = SI5351_PLLA then s.plla_freq else s.pllb_freq) = some ms ∧
      set_freq freq clk s = some t ∧
      t.bus = s.bus ++
        [BusOp.read (44 + 8 * clk),
         BusOp.write (42 + 8 * clk) (ms_params ms.1 (clear8 (s.regs (44 + 8 * clk) % 256) 0x03)),
         BusOp.read (16 + clk),
         BusOp.write (16 + clk) [clear8 (s.regs (16 + clk) % 256) SI5351_CLK_INTEGER_MODE],
         BusOp.read (44 + 8 * clk),
         BusOp.write (44 + 8 * clk) [t.regs (44 + 8 * clk)]] ∧
      (t.regs (44 + 8 * clk) >>> 4) &&& 7 = (select_r_div freq).1 ∧
      t.regs (44 + 8 * clk) &&& 3 = (ms.1.p1 >>> 16) &&& 3 ∧
      t.regs (44 + 8 * clk) &&& SI5351_OUTPUT_CLK_DIVBY4 = 0 := by
  obtain ⟨ms, hms⟩ := multisynth_calc_fixed_some (select_r_div freq).2 _ hp
  have hr := select_r_div_exp_le freq
  have hq : (ms.1.p1 >>> 16) &&& 3 < 4 := Nat.lt_succ_of_le Nat.and_le_right
  have hv : ∀ a, s.regs a % 256 < 256 := fun a => Nat.mod_lt _ (by norm_num)
  refine ⟨ms, set_ms clk ms.1 0 (select_r_div freq).1 0 s, hms, ?_, ?_⟩
  · simp only [set_freq, hms]
  · interval_cases clk
    · have hb := ms_div_byte ⟨_, hv 44⟩ ⟨_, hq⟩ ⟨_, Nat.lt_succ_of_le hr⟩
      simp only at hb
      simp [set_ms, ms_div, set_int, write_bulk, write_reg, read_reg, store, ms_params,
        SI5351_CLK0, SI5351_CLK1, SI5351_CLK2, SI5351_CLK0_PARAMETERS,
        SI5351_CLK1_PARAMETERS, SI5351_CLK2_PARAMETERS, SI5351_CLK0_CTRL,
        SI5351_CLK_INTEGER_MODE, SI5351_OUTPUT_CLK_DIVBY4, SI5351_OUTPUT_CLK_DIV_SHIFT,
        Function.update]
      exact hb
    · have hb := ms_div_byte ⟨_, hv 52⟩ ⟨_, hq⟩ ⟨_, Nat.lt_succ_of_le hr⟩
      simp only at hb
      simp [set_ms, ms_div, set_int, write_bulk, write_reg, read_reg, store, ms_params,
        SI5351_CLK0, SI5351_CLK1, SI5351_CLK2, SI5351_CLK0_PARAMETERS,
        SI5351_CLK1_PARAMETERS, SI5351_CLK2_PARAMETERS, SI5351_CLK0_CTRL,
        SI5351_CLK_INTEGER_MODE, SI5351_OUTPUT_CLK_DIVBY4, SI5351_OUTPUT_CLK_DIV_SHIFT,
        Function.update]
      exact hb
    · have hb := ms_div_byte ⟨_, hv 60⟩ ⟨_, hq⟩ ⟨_, Nat.lt_succ_of_le hr⟩
      simp only at hb
      simp [set_ms, ms_div, set_int, write_bulk, write_reg, read_reg, store, ms_params,
        SI5351_CLK0, SI5351_CLK1, SI5351_CLK2, SI5351_CLK0_PARAMETERS,
        SI5351_CLK1_PARAMETERS, SI5351_CLK2_PARAMETERS, SI5351_CLK0_CTRL,
        SI5351_CLK_INTEGER_MODE, SI5351_OUTPUT_CLK_DIVBY4, SI5351_OUTPUT_CLK_DIV_SHIFT,
        Function.update]
      exact hb

/-- After `init` the clock-control registers 16, 17 and 18 hold `0x0C`. -/
theorem init_clk_ctrl (s : Driver) :
    (init s).regs 16 = 0x0C ∧ (init s).regs 17 = 0x0C ∧ (init s).regs 18 = 0x0C := by
  simp [init, for_loop, write_reg, read_reg, set_pll, write_bulk, store, pll_params,
    set_ms_source, pll_reset, clear8, List.range', Function.update,
    SI5351_PLL_INPUT_XO, SI5351_XTAL_FREQ, SI5351_CLKIN_DIV_1, SI5351_CRYSTAL_LOAD,
    SI5351_CLK3_0_DISABLE_STATE, SI5351_OEB_PIN_ENABLE_CTRL, SI5351_OUTPUT_ENABLE_CTRL,
    SI5351_PLL_FIXED, SI5351_PLLA, SI5351_PLLB, SI5351_PLLA_PARAMETERS,
    SI5351_PLLB_PARAMETERS, SI5351_CLK0_CTRL, SI5351_CLK_PLL_SELECT,
    SI5351_VXCO_PARAMETERS_LOW, SI5351_VXCO_PARAMETERS_MID, SI5351_VXCO_PARAMETERS_HIGH,
    SI5351_PLL_RESET, SI5351_PLL_RESET_A, SI5351_PLL_RESET_B]
  decide

/-! ## Claims C11 to C18 -/

/-- Claim C11, as stated, fails: with correction 2 the corrected reference is
`2500000004`, while `2500000000 + 2500000000 * 2 / 1000000000` is
`2500000005`; with correction `2147483647` it is `3573741821`, while the exact
value is `7868709117`. -/
theorem corrected_ref_not_exact :
    (corrected_ref SI5351_XTAL_FREQ 2 : Int) = 2500000004 ∧
    (corrected_ref SI5351_XTAL_FREQ 2 : Int) ≠ 2500000000 + 2500000000 * 2 / 1000000000 ∧
    (corrected_ref SI5351_XTAL_FREQ 2147483647 : Int) = 3573741821 ∧
    (corrected_ref SI5351_XTAL_FREQ 2147483647 : Int)
      ≠ 2500000000 + 2500000000 * 2147483647 / 1000000000 := by
  decide

/-- Claim C11, amended: for every correction with absolute value at most
`858993459`, the corrected reference of the 25 MHz crystal is
`2500000000 + floor(q * 2500000000 / 2^31)` with `q` the quotient
`corr * 2^31 / 10^9` truncated toward zero, and it differs from
`2500000000 + floor(2500000000 * corr / 10^9)` by at most 2 below and 1
above. -/
theorem corrected_ref_fixed_point (corr : Int)
    (h1 : -858993459 ≤ corr) (h2 : corr ≤ 858993459) :
    (corrected_ref SI5351_XTAL_FREQ corr : Int)
      = 2500000000 + Int.tdiv (corr * 2147483648) 1000000000 * 2500000000 / 2147483648 ∧
    (2500000000 + 2500000000 * corr / 1000000000) - 2
      ≤ (corrected_ref SI5351_XTAL_FREQ corr : Int) ∧
    (corrected_ref SI5351_XTAL_FREQ corr : Int)
      ≤ (2500000000 + 2500000000 * corr / 1000000000) + 1 := by
  have hb := corr_term_bounds 2500000000 corr
  have he := corr_term_eq corr h1 h2
  have hcase := tdiv_scaled corr
  have hr : (corrected_ref SI5351_XTAL_FREQ corr : Int)
      = 2500000000 + corr_term 2500000000 corr := by
    unfold corrected_ref
    simp only [SI5351_XTAL_FREQ, SI5351_FREQ_MULT, U64, Nat.reduceMul, Nat.reduceMod,
      Nat.cast_ofNat]
    omega
  rw [hr, he]
  generalize Int.tdiv (corr * 2147483648) 1000000000 = q at hcase ⊢
  refine ⟨rfl, ?_, ?_⟩
  · rcases hcase with ⟨h0, hq⟩ | ⟨h0, hq⟩ <;> omega
  · rcases hcase with ⟨h0, hq⟩ | ⟨h0, hq⟩ <;> omega

/-- Claim C11, amended, instance: correction 2. -/
theorem corrected_ref_fixed_point_witness :
    ((-858993459 : Int) ≤ 2 ∧ (2 : Int) ≤ 858993459) ∧
    ((corrected_ref SI5351_XTAL_FREQ 2 : Int)
        = 2500000000 + Int.tdiv (2 * 2147483648) 1000000000 * 2500000000 / 2147483648 ∧
      (2500000000 + 2500000000 * 2 / 1000000000) - 2
        ≤ (corrected_ref SI5351_XTAL_FREQ 2 : Int) ∧
      (corrected_ref SI5351_XTAL_FREQ 2 : Int)
        ≤ (2500000000 + 2500000000 * 2 / 1000000000) + 1) :=
  ⟨by decide, corrected_ref_fixed_point 2 (by decide) (by decide)⟩

/-- Claim C12, as stated, fails: at target `60000000001` with correction 0 the
remainder of the target by the reference is 1, not 0, and yet `p3 = 1`. -/
theorem pll_calc_p3_one_with_remainder :
    (pll_calc SI5351_XTAL_FREQ 60000000001 0 false).1.p3 = 1 ∧
    pll_clamp 60000000001 % corrected_ref SI5351_XTAL_FREQ 0 = 1 ∧
    ¬ ((pll_calc SI5351_XTAL_FREQ 60000000001 0 false).1.p3 = 1 ↔
        pll_clamp 60000000001 % corrected_ref SI5351_XTAL_FREQ 0 = 0) := by
  decide

/-- Claim C12, amended: for every target in the VCO range and every `int32_t`
correction, `p3 = 1` exactly when the numerator `b` is zero, which is the case
exactly when the ratio `target / ref` is outside `[15, 90]` or
`(target mod ref) * 10^6 < ref` (in particular when the remainder is zero);
`p3` is 1 or `1000000`; and `b ≤ 999999`. -/
theorem pll_calc_denominator (freq : Nat) (corr : Int)
    (hlo : 60000000000 ≤ freq) (hhi : freq ≤ 90000000000)
    (_hcorr : -2147483648 ≤ corr ∧ corr ≤ 2147483647) :
    ((pll_calc SI5351_XTAL_FREQ freq corr false).1.p3 = 1 ↔
      pll_b (corrected_ref SI5351_XTAL_FREQ corr) freq = 0) ∧
    (pll_b (corrected_ref SI5351_XTAL_FREQ corr) freq = 0 ↔
      (freq / corrected_ref SI5351_XTAL_FREQ corr < 15 ∨
       90 < freq / corrected_ref SI5351_XTAL_FREQ corr ∨
       (freq % corrected_ref SI5351_XTAL_FREQ corr) * 1000000
         < corrected_ref SI5351_XTAL_FREQ corr)) ∧
    ((pll_calc SI5351_XTAL_FREQ freq corr false).1.p3 = 1 ∨
      (pll_calc SI5351_XTAL_FREQ freq corr false).1.p3 = 1000000) ∧
    pll_b (corrected_ref SI5351_XTAL_FREQ corr) freq ≤ 999999 := by
  have hr := corrected_ref_bounds corr
  have hb := pll_b_eq _ freq hr.1 hr.2
  have hz := pll_b_eq_zero_iff _ freq hr.1 hr.2
  rw [pll_clamp_id freq hlo hhi] at hz
  have hc := pll_c_cases (corrected_ref SI5351_XTAL_FREQ corr) freq
  have hp3 : (pll_calc SI5351_XTAL_FREQ freq corr false).1.p3
      = pll_c (corrected_ref SI5351_XTAL_FREQ corr) freq false := rfl
  rw [hp3]
  refine ⟨?_, hz, ?_, by omega⟩
  · unfold pll_c
    simp only [RFRAC_DENOM, Bool.false_eq_true, if_false]
    split_ifs with h
    · simp [h]
    · simp only [ne_eq, not_not] at h
      simp [h]
  · rcases hc with h | ⟨h, _⟩
    · exact Or.inr h
    · exact Or.inl h

/-- Claim C12, amended, instance: target `60000000001`, correction 0. -/
theorem pll_calc_denominator_witness :
    (60000000000 ≤ 60000000001 ∧ 60000000001 ≤ 90000000000 ∧
      ((-2147483648 : Int) ≤ 0 ∧ (0 : Int) ≤ 2147483647)) ∧
    (((pll_calc SI5351_XTAL_FREQ 60000000001 0 false).1.p3 = 1 ↔
        pll_b (corrected_ref SI5351_XTAL_FREQ 0) 60000000001 = 0) ∧
      (pll_b (corrected_ref SI5351_XTAL_FREQ 0) 60000000001 = 0 ↔
        (60000000001 / corrected_ref SI5351_XTAL_FREQ 0 < 15 ∨
         90 < 60000000001 / corrected_ref SI5351_XTAL_FREQ 0 ∨
         (60000000001 % corrected_ref SI5351_XTAL_FREQ 0) * 1000000
           < corrected_ref SI5351_XTAL_FREQ 0)) ∧
      ((pll_calc SI5351_XTAL_FREQ 60000000001 0 false).1.p3 = 1 ∨
        (pll_calc SI5351_XTAL_FREQ 60000000001 0 false).1.p3 = 1000000) ∧
      pll_b (corrected_ref SI5351_XTAL_FREQ 0) 60000000001 ≤ 999999) :=
  ⟨by decide, pll_calc_denominator 60000000001 0 (by decide) (by decide) (by decide)⟩

/-- Claim C13, as stated, fails: at target `60833332427` with correction `-1`
the reference is `2499999997`, the ratio is 24, `pll_calc` returns
`60833329927`, and the error 2500 times `10^6` is not below the reference. -/
theorem pll_calc_error_reaches_reference :
    corrected_ref SI5351_XTAL_FREQ (-1) = 2499999997 ∧
    60833332427 / corrected_ref SI5351_XTAL_FREQ (-1) = 24 ∧
    (pll_calc SI5351_XTAL_FREQ 60833332427 (-1) false).2 = 60833329927 ∧
    ¬ ((60833332427 - (pll_calc SI5351_XTAL_FREQ 60833332427 (-1) false).2) * 1000000
        < corrected_ref SI5351_XTAL_FREQ (-1)) := by
  decide

/-- Claim C13, amended: for every target in `[60000000000, 90000000000]` and
every `int32_t` correction for which `target / ref` lies in `[15, 90]`, the
frequency returned by `pll_calc` satisfies `achieved ≤ target` and
`(target - achieved) * 10^6 < ref + 10^6`. -/
theorem pll_calc_error_bound (freq : Nat) (corr : Int)
    (hlo : 60000000000 ≤ freq) (hhi : freq ≤ 90000000000)
    (_hcorr : -2147483648 ≤ corr ∧ corr ≤ 2147483647)
    (ha : 15 ≤ freq / corrected_ref SI5351_XTAL_FREQ corr ∧
      freq / corrected_ref SI5351_XTAL_FREQ corr ≤ 90) :
    (pll_calc SI5351_XTAL_FREQ freq corr false).2 ≤ freq ∧
    (freq - (pll_calc SI5351_XTAL_FREQ freq corr false).2) * 1000000
      < corrected_ref SI5351_XTAL_FREQ corr + 1000000 := by
  have hr := corrected_ref_bounds corr
  have hpos : 0 < corrected_ref SI5351_XTAL_FREQ corr := by omega
  have hcl := pll_clamp_id freq hlo hhi
  have hA := (pll_a_eq _ freq hr.1 hr.2).1
  have hadj := pll_adjust_eq _ freq hr.1 hr.2
  have hB := (pll_b_eq _ freq hr.1 hr.2).1
  have hc := pll_c_cases (corrected_ref SI5351_XTAL_FREQ corr) freq
  rw [hcl] at hA hadj
  rw [if_neg (by omega), if_neg (by omega)] at hadj
  rw [hadj] at hB
  rw [pll_calc_eq]
  simp only
  rw [hA]
  have hdm : corrected_ref SI5351_XTAL_FREQ corr * (freq / corrected_ref SI5351_XTAL_FREQ corr)
      + freq % corrected_ref SI5351_XTAL_FREQ corr = freq := Nat.div_add_mod _ _
  have hle : corrected_ref SI5351_XTAL_FREQ corr * pll_b (corrected_ref SI5351_XTAL_FREQ corr) freq
      ≤ freq % corrected_ref SI5351_XTAL_FREQ corr * 1000000 := by
    rw [hB]; exact Nat.mul_div_le _ _
  have hlt : freq % corrected_ref SI5351_XTAL_FREQ corr * 1000000
      < corrected_ref SI5351_XTAL_FREQ corr * pll_b (corrected_ref SI5351_XTAL_FREQ corr) freq
        + corrected_ref SI5351_XTAL_FREQ corr := by
    rw [hB]
    have := Nat.lt_mul_div_succ (freq % corrected_ref SI5351_XTAL_FREQ corr * 1000000) hpos
    rw [Nat.mul_add, Nat.mul_one] at this
    exact this
  generalize corrected_ref SI5351_XTAL_FREQ corr * (freq / corrected_ref SI5351_XTAL_FREQ corr)
    = RA at hdm ⊢
  generalize freq % corrected_ref SI5351_XTAL_FREQ corr = rem at hdm hle hlt ⊢
  rcases hc with hc | ⟨hc, hb0⟩
  · rw [hc]
    generalize corrected_ref SI5351_XTAL_FREQ corr
      * pll_b (corrected_ref SI5351_XTAL_FREQ corr) freq = X at hle hlt ⊢
    omega
  · rw [hb0] at hle hlt
    rw [hc, hb0]
    simp only [Nat.mul_zero, Nat.zero_div, Nat.zero_add] at hle hlt ⊢
    omega

/-- Claim C13, amended, instance: target `60833332427`, correction `-1`. -/
theorem pll_calc_error_bound_witness :
    (60000000000 ≤ 60833332427 ∧ 60833332427 ≤ 90000000000 ∧
      ((-2147483648 : Int) ≤ -1 ∧ (-1 : Int) ≤ 2147483647) ∧
      (15 ≤ 60833332427 / corrected_ref SI5351_XTAL_FREQ (-1) ∧
        60833332427 / corrected_ref SI5351_XTAL_FREQ (-1) ≤ 90)) ∧
    ((pll_calc SI5351_XTAL_FREQ 60833332427 (-1) false).2 ≤ 60833332427 ∧
      (60833332427 - (pll_calc SI5351_XTAL_FREQ 60833332427 (-1) false).2) * 1000000
        < corrected_ref SI5351_XTAL_FREQ (-1) + 1000000) :=
  ⟨by decide,
    pll_calc_error_bound 60833332427 (-1) (by decide) (by decide) (by decide) (by decide)⟩

/-- Claim C14, failing input: `set_pll(3, SI5351_PLLA)`. The member `plla_freq`
receives the argument 3, which is outside `[60000000000, 90000000000]`, while
the fields written to register 26 are those of the clamped target
`60000000000` (`p1 = 2560, p2 = 0, p3 = 1`); the same holds for PLL B. -/
theorem set_pll_caches_request :
    (∀ s : Driver, (set_pll 3 SI5351_PLLA s).plla_freq = 3) ∧
    (∀ s : Driver, (set_pll 3 SI5351_PLLB s).pllb_freq = 3) ∧
    ¬ (60000000000 ≤ (set_pll 3 SI5351_PLLA (init blank)).plla_freq) ∧
    pll_calc SI5351_XTAL_FREQ 3 0 false = (⟨2560, 0, 1⟩, 60000000000) ∧
    (set_pll 3 SI5351_PLLA (init blank)).bus.getLast?
      = some (BusOp.write SI5351_PLLA_PARAMETERS (pll_params ⟨2560, 0, 1⟩)) := by
  refine ⟨fun _ => rfl, fun _ => rfl, ?_, ?_, ?_⟩ <;> decide

/-- Claim C15, failing input: after `init` and `set_pll(3, SI5351_PLLA)` the
cached frequency of PLL A is 3, which is non-zero; `set_freq(1400000000, 0)`
then calls `multisynth_calc(1400000000, 3)`, which sets `freq = 3 / 6 = 0` and
divides by it at line 385, so no parameter bytes are defined. -/
theorem set_freq_small_pll_undefined :
    (set_pll 3 SI5351_PLLA (init blank)).pll_assignment 0 = SI5351_PLLA ∧
    (set_pll 3 SI5351_PLLA (init blank)).plla_freq = 3 ∧
    select_r_div 1400000000 = (0, 1400000000) ∧
    multisynth_calc 1400000000 3 = none ∧
    (set_freq 1400000000 0 (set_pll 3 SI5351_PLLA (init blank))).isNone = true := by
  decide

/-- Claim C16: for every `int32_t` value `ppb`, in a state whose two PLLs use
the crystal as `init` leaves them, `set_correction(ppb, SI5351_PLL_INPUT_XO)`
stores `ppb` as the correction of the crystal, leaves `plla_freq` and
`pllb_freq` unchanged, and writes two transactions: the parameter block at
register 26 and the one at register 34, each holding the packed fields that
`pll_calc` yields for the cached frequency under the new correction. -/
theorem set_correction_rewrites_plls (ppb : Int) (s : Driver)
    (_hppb : -2147483648 ≤ ppb ∧ ppb ≤ 2147483647)
    (hA : s.plla_ref_osc = SI5351_PLL_INPUT_XO) (hB : s.pllb_ref_osc = SI5351_PLL_INPUT_XO)
    (hx : s.xtal_freq SI5351_PLL_INPUT_XO = SI5351_XTAL_FREQ) :
    (set_correction ppb SI5351_PLL_INPUT_XO s).ref_correction SI5351_PLL_INPUT_XO = ppb ∧
    (set_correction ppb SI5351_PLL_INPUT_XO s).plla_freq = s.plla_freq ∧
    (set_correction ppb SI5351_PLL_INPUT_XO s).pllb_freq = s.pllb_freq ∧
    (set_correction ppb SI5351_PLL_INPUT_XO s).bus = s.bus ++
      [BusOp.write SI5351_PLLA_PARAMETERS
         (pll_params (pll_calc SI5351_XTAL_FREQ s.plla_freq ppb false).1),
       BusOp.write SI5351_PLLB_PARAMETERS
         (pll_params (pll_calc SI5351_XTAL_FREQ s.pllb_freq ppb false).1)] ∧
    (List.range 8).map (fun i => (set_correction ppb SI5351_PLL_INPUT_XO s).regs (26 + i))
      = pll_params (pll_calc SI5351_XTAL_FREQ s.plla_freq ppb false).1 ∧
    (List.range 8).map (fun i => (set_correction ppb SI5351_PLL_INPUT_XO s).regs (34 + i))
      = pll_params (pll_calc SI5351_XTAL_FREQ s.pllb_freq ppb false).1 := by
  rcases s with ⟨regs, bus, pa, fa, fb, oa, ob, xt, rc, cd⟩
  simp only [SI5351_PLL_INPUT_XO] at hA hB hx
  subst hA hB
  refine ⟨?_, ?_, ?_, ?_, ?_, ?_⟩
  · simp [set_correction, set_pll, write_bulk, SI5351_PLLA, SI5351_PLLB, SI5351_PLL_INPUT_XO]
  · simp [set_correction, set_pll, write_bulk, SI5351_PLLA, SI5351_PLLB]
  · simp [set_correction, set_pll, write_bulk, SI5351_PLLA, SI5351_PLLB]
  · simp [set_correction, set_pll, write_bulk, SI5351_PLLA, SI5351_PLLB, SI5351_PLL_INPUT_XO,
      hx]
  · simp [set_correction, set_pll, write_bulk, SI5351_PLLA, SI5351_PLLB, SI5351_PLL_INPUT_XO,
      SI5351_PLLA_PARAMETERS, SI5351_PLLB_PARAMETERS, hx, store, pll_params,
      List.range, List.range.loop, Function.update]
  · simp [set_correction, set_pll, write_bulk, SI5351_PLLA, SI5351_PLLB, SI5351_PLL_INPUT_XO,
      SI5351_PLLA_PARAMETERS, SI5351_PLLB_PARAMETERS, hx, store, pll_params,
      List.range, List.range.loop, Function.update]

/-- Claim C16, instance: the state after `init` on a blank state, `ppb = 1000`. -/
theorem set_correction_rewrites_plls_witness :
    (((-2147483648 : Int) ≤ 1000 ∧ (1000 : Int) ≤ 2147483647) ∧
      (init blank).plla_ref_osc = SI5351_PLL_INPUT_XO ∧
      (init blank).pllb_ref_osc = SI5351_PLL_INPUT_XO ∧
      (init blank).xtal_freq SI5351_PLL_INPUT_XO = SI5351_XTAL_FREQ) ∧
    ((set_correction 1000 SI5351_PLL_INPUT_XO (init blank)).ref_correction SI5351_PLL_INPUT_XO
        = 1000 ∧
      (set_correction 1000 SI5351_PLL_INPUT_XO (init blank)).plla_freq = (init blank).plla_freq ∧
      (set_correction 1000 SI5351_PLL_INPUT_XO (init blank)).pllb_freq = (init blank).pllb_freq ∧
      (set_correction 1000 SI5351_PLL_INPUT_XO (init blank)).bus = (init blank).bus ++
        [BusOp.write SI5351_PLLA_PARAMETERS
           (pll_params (pll_calc SI5351_XTAL_FREQ (init blank).plla_freq 1000 false).1),
         BusOp.write SI5351_PLLB_PARAMETERS
           (pll_params (pll_calc SI5351_XTAL_FREQ (init blank).pllb_freq 1000 false).1)] ∧
      (List.range 8).map
          (fun i => (set_correction 1000 SI5351_PLL_INPUT_XO (init blank)).regs (26 + i))
        = pll_params (pll_calc SI5351_XTAL_FREQ (init blank).plla_freq 1000 false).1 ∧
      (List.range 8).map
          (fun i => (set_correction 1000 SI5351_PLL_INPUT_XO (init blank)).regs (34 + i))
        = pll_params (pll_calc SI5351_XTAL_FREQ (init blank).pllb_freq 1000 false).1) :=
  ⟨by decide, set_correction_rewrites_plls 1000 (init blank) (by decide) rfl rfl rfl⟩

/-- Claim C17: after `init`, from any state, both cached PLL frequencies are
`80000000000`, channels 0, 1 and 2 are assigned to PLL A, the clock-control
registers 16, 17 and 18 have the PLL-select bit (bit 5) and the integer-mode
bit (bit 6) clear, and the last two transactions are the writes of the PLL-A
reset `0x20` and then of the PLL-B reset `0x80` to register 177. -/
theorem init_state (s : Driver) :
    (init s).plla_freq = 80000000000 ∧ (init s).pllb_freq = 80000000000 ∧
    ((init s).pll_assignment 0 = SI5351_PLLA ∧ (init s).pll_assignment 1 = SI5351_PLLA ∧
      (init s).pll_assignment 2 = SI5351_PLLA) ∧
    ((init s).regs 16 &&& SI5351_CLK_PLL_SELECT = 0 ∧
      (init s).regs 16 &&& SI5351_CLK_INTEGER_MODE = 0 ∧
      (init s).regs 17 &&& SI5351_CLK_PLL_SELECT = 0 ∧
      (init s).regs 17 &&& SI5351_CLK_INTEGER_MODE = 0 ∧
      (init s).regs 18 &&& SI5351_CLK_PLL_SELECT = 0 ∧
      (init s).regs 18 &&& SI5351_CLK_INTEGER_MODE = 0) ∧
    ∃ pre, (init s).bus = pre ++
      [BusOp.write SI5351_PLL_RESET [SI5351_PLL_RESET_A],
       BusOp.write SI5351_PLL_RESET [SI5351_PLL_RESET_B]] := by
  obtain ⟨h16, h17, h18⟩ := init_clk_ctrl s
  refine ⟨rfl, rfl, ⟨rfl, rfl, rfl⟩, ?_, ⟨_, List.append_assoc _ _ _⟩⟩
  rw [h16, h17, h18]
  decide

/-- Claim C18: `powerDown` writes `0xFF` to register 3 and `0x80` to each of the
registers 16 to 23, in that order and nothing else; afterwards exactly those
registers have changed, and the members `pll_assignment`, `plla_freq`,
`pllb_freq`, the reference selections, `xtal_freq`, `ref_correction` and
`clkin_div` are unchanged. -/
theorem powerDown_effect (s : Driver) :
    (powerDown s).bus = s.bus ++
      [BusOp.write 3 [0xFF], BusOp.write 16 [0x80], BusOp.write 17 [0x80],
       BusOp.write 18 [0x80], BusOp.write 19 [0x80], BusOp.write 20 [0x80],
       BusOp.write 21 [0x80], BusOp.write 22 [0x80], BusOp.write 23 [0x80]] ∧
    (∀ r, (powerDown s).regs r =
      if r = 3 then 0xFF else if 16 ≤ r ∧ r ≤ 23 then 0x80 else s.regs r) ∧
    (powerDown s).pll_assignment = s.pll_assignment ∧
    (powerDown s).plla_freq = s.plla_freq ∧ (powerDown s).pllb_freq = s.pllb_freq ∧
    (powerDown s).plla_ref_osc = s.plla_ref_osc ∧ (powerDown s).pllb_ref_osc = s.pllb_ref_osc ∧
    (powerDown s).xtal_freq = s.xtal_freq ∧ (powerDown s).ref_correction = s.ref_correction ∧
    (powerDown s).clkin_div = s.clkin_div := by
  refine ⟨?_, ?_, rfl, rfl, rfl, rfl, rfl, rfl, rfl, rfl⟩
  · simp [powerDown, for_loop, write_reg, SI5351_OUTPUT_ENABLE_CTRL, List.range']
  · intro r
    simp only [powerDown, for_loop, write_reg, SI5351_OUTPUT_ENABLE_CTRL, List.range',
      List.foldl, Function.update_apply]
    split_ifs <;> first | rfl | omega

/-! ## Auxiliary facts: multisynth_calc in fixed-PLL mode -/

/-- In fixed-PLL mode with the PLL in the VCO range: the ratio is exact and
lies in `[2, 1800]`, the adjusted target is `pll_freq / 6` when the ratio is
below 6 and the clamped target otherwise, and it is positive. -/
theorem ms_fixed_ratio (freq pll_freq : Nat)
    (hlo : 60000000000 ≤ pll_freq) (hhi : pll_freq ≤ 90000000000) :
    ms_fixed_a freq pll_freq = pll_freq / ms_clamp freq ∧
    2 ≤ pll_freq / ms_clamp freq ∧ pll_freq / ms_clamp freq ≤ 1800 ∧
    (ms_clamp freq < 15000000000 → 4 ≤ pll_freq / ms_clamp freq) ∧
    ms_adjust freq pll_freq
      = (if pll_freq / ms_clamp freq < 6 then pll_freq / 6 else ms_clamp freq) ∧
    0 < ms_adjust freq pll_freq ∧ ms_adjust freq pll_freq ≤ 22500000000 := by
  have ht := ms_clamp_bounds freq
  have htpos : 0 < ms_clamp freq := by omega
  have h2 : 2 ≤ pll_freq / ms_clamp freq := by
    rw [Nat.le_div_iff_mul_le htpos]; omega
  have h1800 : pll_freq / ms_clamp freq ≤ 1800 := by
    have : pll_freq / ms_clamp freq < 1801 := by
      rw [Nat.div_lt_iff_lt_mul htpos]; omega
    omega
  have h4 : ms_clamp freq < 15000000000 → 4 ≤ pll_freq / ms_clamp freq := by
    intro h
    rw [Nat.le_div_iff_mul_le htpos]; omega
  have ha : ms_fixed_a freq pll_freq = pll_freq / ms_clamp freq := by
    unfold ms_fixed_a
    simp only [U32]
    omega
  have hadj : ms_adjust freq pll_freq
      = (if pll_freq / ms_clamp freq < 6 then pll_freq / 6 else ms_clamp freq) := by
    unfold ms_adjust
    simp only [SI5351_MULTISYNTH_A_MIN, SI5351_MULTISYNTH_A_MAX, ha]
    split_ifs <;> first | rfl | omega
  refine ⟨ha, h2, h1800, h4, hadj, ?_, ?_⟩
  · rw [hadj]; split_ifs <;> omega
  · rw [hadj]; split_ifs <;> omega

/-- In fixed-PLL mode with the PLL in the VCO range the numerator `b` is
computed without wrap-around and is below `10^6`. -/
theorem ms_fixed_b_eq (freq pll_freq : Nat)
    (hlo : 60000000000 ≤ pll_freq) (hhi : pll_freq ≤ 90000000000) :
    ms_fixed_b freq pll_freq
      = (pll_freq % ms_adjust freq pll_freq) * 1000000 / ms_adjust freq pll_freq ∧
    ms_fixed_b freq pll_freq < 1000000 := by
  obtain ⟨_, _, _, _, _, hpos, hle⟩ := ms_fixed_ratio freq pll_freq hlo hhi
  have hm : pll_freq % ms_adjust freq pll_freq < ms_adjust freq pll_freq := Nat.mod_lt _ hpos
  have hq : (pll_freq % ms_adjust freq pll_freq) * 1000000 / ms_adjust freq pll_freq
      < 1000000 := by
    rw [Nat.div_lt_iff_lt_mul hpos]; omega
  unfold ms_fixed_b
  simp only [U32, U64, RFRAC_DENOM]
  rw [Nat.mod_eq_of_lt (by omega :
      pll_freq % ms_adjust freq pll_freq * 1000000 < 18446744073709551616),
    Nat.mod_eq_of_lt (by omega :
      pll_freq % ms_adjust freq pll_freq * 1000000 / ms_adjust freq pll_freq < 4294967296)]
  exact ⟨rfl, hq⟩

/-- What `multisynth_calc` computes in fixed-PLL mode with the PLL in the VCO
range and the clamped target below the divide-by-4 threshold, free of the
reductions modulo `2^32` and `2^64`, none of which takes effect. -/
theorem multisynth_calc_fixed_eq (freq pll_freq : Nat)
    (hlo : 60000000000 ≤ pll_freq) (hhi : pll_freq ≤ 90000000000)
    (ht : ms_clamp freq < 15000000000) :
    multisynth_calc freq pll_freq =
      some (⟨128 * (pll_freq / ms_clamp freq)
               + 128 * ms_fixed_b freq pll_freq
                   / (if ms_fixed_b freq pll_freq ≠ 0 then 1000000 else 1) - 512,
             128 * ms_fixed_b freq pll_freq
               % (if ms_fixed_b freq pll_freq ≠ 0 then 1000000 else 1),
             if ms_fixed_b freq pll_freq ≠ 0 then 1000000 else 1⟩,
            ms_adjust freq pll_freq) := by
  obtain ⟨ha, h2, h1800, h4, hadj, hpos, hle⟩ := ms_fixed_ratio freq pll_freq hlo hhi
  have hb := ms_fixed_b_eq freq pll_freq hlo hhi
  have hd : ms_divby4 freq = false := by
    rw [ms_divby4_eq]; exact decide_eq_false (by omega)
  have h4 := h4 ht
  unfold multisynth_calc
  rw [if_neg (by omega), if_neg (by omega)]
  simp only [ms_fields, hd, Bool.false_eq_true, if_false, RFRAC_DENOM, ha]
  rw [calc_p1_eq _ _ _ h4 (by omega) hb.2, calc_p2_eq _ _ hb.2]

/-! ## Auxiliary facts: packing and the parameter block -/

/-- The packing identity behind `p1` and `p2`: with `c` equal to `10^6`, or to
1 when `b = 0`, and `4 ≤ a`. -/
theorem pack_identity (a b c : Nat) (ha : 4 ≤ a) (hc : 0 < c) :
    128 * b % c < c ∧
    (128 * a + 128 * b / c - 512 + 512) * c + 128 * b % c = 128 * (a * c + b) := by
  refine ⟨Nat.mod_lt _ hc, ?_⟩
  have h2 : c * (128 * b / c) + 128 * b % c = 128 * b := Nat.div_add_mod _ _
  generalize 128 * b / c = q at h2 ⊢
  generalize 128 * b % c = m at h2 ⊢
  have h1 : 128 * a + q - 512 + 512 = 128 * a + q := by omega
  rw [h1, Nat.add_mul, Nat.mul_add, Nat.mul_assoc, Nat.mul_comm q c]
  generalize a * c = ac
  generalize c * q = cq at h2 ⊢
  omega

/-- The mask `0xFF`. -/
theorem and_255 (x : Nat) : x &&& 0xFF = x % 256 := Nat.and_pow_two_sub_one_eq_mod x 8

/-- The mask `0x0F`. -/
theorem and_15 (x : Nat) : x &&& 0x0F = x % 16 := Nat.and_pow_two_sub_one_eq_mod x 4

/-- The mask `0x03`. -/
theorem and_3 (x : Nat) : x &&& 0x03 = x % 4 := Nat.and_pow_two_sub_one_eq_mod x 2

set_option maxRecDepth 100000 in
/-- The mask `0xF0` on a byte. -/
theorem and_240_byte : ∀ y : Fin 256, y.val &&& 0xF0 = y.val / 16 * 16 := by
  decide

/-- Three fields with disjoint bits joined by `|`: a multiple of `2^16`, a
byte shifted by 8, and a byte. -/
theorem lor_bytes (h b c : Nat) (hb : b < 256) (hc : c < 256) :
    ((65536 * h) ||| (b <<< 8)) ||| c = 65536 * h + 256 * b + c := by
  have e1 : 2 ^ 8 * b + c = 2 ^ 8 * b ||| c := Nat.mul_add_lt_is_or (by omega) b
  have e2 : 2 ^ 16 * h + (2 ^ 8 * b + c) = 2 ^ 16 * h ||| (2 ^ 8 * b + c) :=
    Nat.mul_add_lt_is_or (by omega) h
  rw [Nat.or_assoc, Nat.shiftLeft_eq, Nat.mul_comm b (2 ^ 8), ← e1]
  norm_num at e2 ⊢
  omega

/-- The six bytes that carry bits 15:0 of the fields, and the split byte 5,
in arithmetic form. -/
theorem param_bytes (p1 p2 p3 : Nat) (h1 : p1 < 262144) (h2 : p2 < 1048576)
    (h3 : p3 < 1048576) :
    (p1 >>> 16) &&& 0x03 = p1 / 65536 ∧
    ((((p3 >>> 12) &&& 0xF0) + ((p2 >>> 16) &&& 0x0F)) % 256) &&& 0xF0 = (p3 / 65536) * 16 ∧
    ((((p3 >>> 12) &&& 0xF0) + ((p2 >>> 16) &&& 0x0F)) % 256) &&& 0x0F = p2 / 65536 := by
  have e3 : (p3 >>> 12) &&& 0xF0 = (p3 / 65536) * 16 := by
    rw [Nat.shiftRight_eq_div_pow]
    have := and_240_byte ⟨p3 / 2 ^ 12, by omega⟩
    simp only at this
    rw [this]
    omega
  have e2 : (p2 >>> 16) &&& 0x0F = p2 / 65536 := by
    rw [Nat.shiftRight_eq_div_pow, and_15]
    omega
  have hb5 : (p3 / 65536 * 16 + p2 / 65536) % 256 = p3 / 65536 * 16 + p2 / 65536 :=
    Nat.mod_eq_of_lt (by omega)
  refine ⟨?_, ?_, ?_⟩
  · rw [Nat.shiftRight_eq_div_pow, and_3]
    omega
  · rw [e3, e2, hb5]
    have := and_240_byte ⟨p3 / 65536 * 16 + p2 / 65536, by omega⟩
    simp only at this
    rw [this]
    omega
  · rw [e3, e2, hb5, and_15]
    omega

/-- A parameter block whose bytes 0, 1, 3, 4, 6, 7 are those of the fields,
whose byte 2 has `p1[17:16]` in its low two bits and whose byte 5 is the split
byte, decodes to the fields. -/
theorem decode_block (p1 p2 p3 b2 : Nat) (h1 : p1 < 262144) (h2 : p2 < 1048576)
    (h3 : p3 < 1048576) (hb2 : b2 &&& 0x03 = p1 / 65536) :
    decode_params
      [ (p3 >>> 8) &&& 0xFF, p3 &&& 0xFF, b2, (p1 >>> 8) &&& 0xFF, p1 &&& 0xFF,
        (((p3 >>> 12) &&& 0xF0) + ((p2 >>> 16) &&& 0x0F)) % 256,
        (p2 >>> 8) &&& 0xFF, p2 &&& 0xFF ] = ⟨p1, p2, p3⟩ := by
  obtain ⟨_, e5h, e5l⟩ := param_bytes p1 p2 p3 h1 h2 h3
  have hA : (p1 / 65536) <<< 16 = 65536 * (p1 / 65536) := by
    rw [Nat.shiftLeft_eq]; omega
  have hB : (p2 / 65536) <<< 16 = 65536 * (p2 / 65536) := by
    rw [Nat.shiftLeft_eq]; omega
  have hC : (p3 / 65536 * 16) <<< 12 = 65536 * (p3 / 65536) := by
    rw [Nat.shiftLeft_eq]; omega
  simp only [decode_params, List.getD_cons_zero, List.getD_cons_succ]
  rw [e5h, e5l, hb2, hA, hB, hC, and_255, and_255, and_255, and_255, and_255, and_255,
    Nat.shiftRight_eq_div_pow, Nat.shiftRight_eq_div_pow, Nat.shiftRight_eq_div_pow,
    lor_bytes _ _ _ (Nat.mod_lt _ (by norm_num)) (Nat.mod_lt _ (by norm_num)),
    lor_bytes _ _ _ (Nat.mod_lt _ (by norm_num)) (Nat.mod_lt _ (by norm_num)),
    lor_bytes _ _ _ (Nat.mod_lt _ (by norm_num)) (Nat.mod_lt _ (by norm_num))]
  simp only [Si5351RegSet.mk.injEq]
  refine ⟨?_, ?_, ?_⟩ <;> omega

set_option maxRecDepth 100000 in
/-- The low two bits of byte 2 as `set_ms` builds it. -/
theorem ms_byte2_low : ∀ w : Fin 256, ∀ q : Fin 4,
    ((clear8 w.val 0x03) ||| q.val) &&& 0x03 = q.val := by
  decide

/-! ## Auxiliary facts: the mode bits after set_ms -/

set_option maxRecDepth 100000 in
/-- Clearing the integer-mode bit of a byte. -/
theorem clear_int_mode_byte : ∀ v : Fin 256,
    clear8 v.val SI5351_CLK_INTEGER_MODE &&& SI5351_CLK_INTEGER_MODE = 0 := by
  decide

/-- What `set_ms` with `int_mode = 0` and `div_by_4 = 0` leaves in the two
registers that carry mode bits, for a channel `clk ≤ 2` and an exponent
`r_div ≤ 7`. -/
theorem set_ms_mode_bits (clk : Nat) (ms : Si5351RegSet) (r_div : Nat) (s : Driver)
    (hclk : clk ≤ 2) (hr : r_div ≤ 7) :
    (set_ms clk ms 0 r_div 0 s).regs (44 + 8 * clk) &&& SI5351_OUTPUT_CLK_DIVBY4 = 0 ∧
    (set_ms clk ms 0 r_div 0 s).regs (16 + clk) &&& SI5351_CLK_INTEGER_MODE = 0 := by
  have hq : (ms.p1 >>> 16) &&& 3 < 4 := Nat.lt_succ_of_le Nat.and_le_right
  have hv : ∀ a, s.regs a % 256 < 256 := fun a => Nat.mod_lt _ (by norm_num)
  interval_cases clk
  · have hb := (ms_div_byte ⟨_, hv 44⟩ ⟨_, hq⟩ ⟨_, Nat.lt_succ_of_le hr⟩).2.2
    have hi := clear_int_mode_byte ⟨_, hv 16⟩
    simp only [SI5351_CLK_INTEGER_MODE] at hb hi
    simp [set_ms, ms_div, set_int, write_bulk, write_reg, read_reg, store, ms_params,
      SI5351_CLK0, SI5351_CLK1, SI5351_CLK2, SI5351_CLK0_PARAMETERS,
      SI5351_CLK1_PARAMETERS, SI5351_CLK2_PARAMETERS, SI5351_CLK0_CTRL,
      SI5351_CLK_INTEGER_MODE, SI5351_OUTPUT_CLK_DIVBY4, SI5351_OUTPUT_CLK_DIV_SHIFT,
      Function.update]
    exact ⟨hb, hi⟩
  · have hb := (ms_div_byte ⟨_, hv 52⟩ ⟨_, hq⟩ ⟨_, Nat.lt_succ_of_le hr⟩).2.2
    have hi := clear_int_mode_byte ⟨_, hv 17⟩
    simp only [SI5351_CLK_INTEGER_MODE] at hb hi
    simp [set_ms, ms_div, set_int, write_bulk, write_reg, read_reg, store, ms_params,
      SI5351_CLK0, SI5351_CLK1, SI5351_CLK2, SI5351_CLK0_PARAMETERS,
      SI5351_CLK1_PARAMETERS, SI5351_CLK2_PARAMETERS, SI5351_CLK0_CTRL,
      SI5351_CLK_INTEGER_MODE, SI5351_OUTPUT_CLK_DIVBY4, SI5351_OUTPUT_CLK_DIV_SHIFT,
      Function.update]
    exact ⟨hb, hi⟩
  · have hb := (ms_div_byte ⟨_, hv 60⟩ ⟨_, hq⟩ ⟨_, Nat.lt_succ_of_le hr⟩).2.2
    have hi := clear_int_mode_byte ⟨_, hv 18⟩
    simp only [SI5351_CLK_INTEGER_MODE] at hb hi
    simp [set_ms, ms_div, set_int, write_bulk, write_reg, read_reg, store, ms_params,
      SI5351_CLK0, SI5351_CLK1, SI5351_CLK2, SI5351_CLK0_PARAMETERS,
      SI5351_CLK1_PARAMETERS, SI5351_CLK2_PARAMETERS, SI5351_CLK0_CTRL,
      SI5351_CLK_INTEGER_MODE, SI5351_OUTPUT_CLK_DIVBY4, SI5351_OUTPUT_CLK_DIV_SHIFT,
      Function.update]
    exact ⟨hb, hi⟩

/-- `multisynth_calc` returns a result when `pll_freq` is zero or at least 6,
and in divide-by-4 mode its fields are `(0, 0, 1)`. -/
theorem multisynth_calc_defined (freq pll_freq : Nat) (hp : pll_freq = 0 ∨ 6 ≤ pll_freq) :
    ∃ ms, multisynth_calc freq pll_freq = some ms ∧
      (15000000000 ≤ ms_clamp freq → ms.1 = ⟨0, 0, 1⟩) := by
  by_cases hd : 15000000000 ≤ ms_clamp freq
  · obtain ⟨ret, h⟩ := multisynth_calc_divby4 freq pll_freq hd hp
    exact ⟨_, h, fun _ => rfl⟩
  · rcases hp with rfl | hp
    · exact ⟨_, by unfold multisynth_calc; rw [if_pos rfl], fun h => absurd h hd⟩
    · obtain ⟨ms, h⟩ := multisynth_calc_fixed_some freq pll_freq hp
      exact ⟨ms, h, fun h => absurd h hd⟩

/-- `multisynth_calc` has no result exactly when `pll_freq` is one of 1 to 5:
the ratio is then 0, the target becomes `pll_freq / 6 = 0` and line 385
divides by it, whatever the target and also in divide-by-4 mode. -/
theorem multisynth_calc_none_iff (freq pll_freq : Nat) :
    multisynth_calc freq pll_freq = none ↔ 1 ≤ pll_freq ∧ pll_freq ≤ 5 := by
  constructor
  · intro h
    by_contra hn
    obtain ⟨ms, hms, _⟩ := multisynth_calc_defined freq pll_freq (by omega)
    rw [h] at hms
    exact Option.noConfusion hms
  · rintro ⟨h1, h5⟩
    have ht := ms_clamp_bounds freq
    have ha : ms_fixed_a freq pll_freq = 0 := by
      unfold ms_fixed_a
      rw [Nat.div_eq_of_lt (by omega)]
      rfl
    have hf : ms_adjust freq pll_freq = 0 := by
      unfold ms_adjust
      simp only [ha, SI5351_MULTISYNTH_A_MIN, SI5351_MULTISYNTH_A_MAX]
      rw [if_neg (by omega), if_pos (by omega)]
      omega
    unfold multisynth_calc
    rw [if_neg (by omega)]
    simp only [hf, if_true]

/-! ## Claims C24 to C29 -/

/-- Claim C24: in fixed-PLL mode, for a PLL frequency in
`[60000000000, 90000000000]` and a clamped target `t = ms_clamp freq` below
`15000000000` with `6 ≤ pll_freq / t ≤ 1800`, `multisynth_calc` returns `t`
unchanged together with the fields of `a = pll_freq / t`,
`b = (pll_freq % t) * 10^6 / t` and `p3 = 10^6` if `b ≠ 0`, else 1, and the
divider `a + b / 10^6` is below the exact ratio by less than `10^-6`:
`t * (a * 10^6 + b) ≤ pll_freq * 10^6 < t * (a * 10^6 + b + 1)`. -/
theorem multisynth_calc_fixed_error (freq pll_freq : Nat)
    (hlo : 60000000000 ≤ pll_freq) (hhi : pll_freq ≤ 90000000000)
    (ht : ms_clamp freq < 15000000000)
    (ha : 6 ≤ pll_freq / ms_clamp freq ∧ pll_freq / ms_clamp freq ≤ 1800) :
    ∃ b c,
      b = (pll_freq % ms_clamp freq) * 1000000 / ms_clamp freq ∧
      c = (if b ≠ 0 then 1000000 else 1) ∧
      multisynth_calc freq pll_freq
        = some (⟨128 * (pll_freq / ms_clamp freq) + 128 * b / c - 512, 128 * b % c, c⟩,
                ms_clamp freq) ∧
      ms_clamp freq * ((pll_freq / ms_clamp freq) * 1000000 + b) ≤ pll_freq * 1000000 ∧
      pll_freq * 1000000 < ms_clamp freq * ((pll_freq / ms_clamp freq) * 1000000 + b + 1) := by
  obtain ⟨_, _, _, _, hadj, hpos, _⟩ := ms_fixed_ratio freq pll_freq hlo hhi
  rw [if_neg (by omega)] at hadj
  have hb := (ms_fixed_b_eq freq pll_freq hlo hhi).1
  have he := multisynth_calc_fixed_eq freq pll_freq hlo hhi ht
  rw [hadj] at hb he hpos
  refine ⟨ms_fixed_b freq pll_freq, _, hb, rfl, he, ?_, ?_⟩
  · have hdm : ms_clamp freq * (pll_freq / ms_clamp freq) + pll_freq % ms_clamp freq = pll_freq :=
      Nat.div_add_mod _ _
    have hle : ms_clamp freq * ms_fixed_b freq pll_freq
        ≤ pll_freq % ms_clamp freq * 1000000 := by
      rw [hb]; exact Nat.mul_div_le _ _
    rw [Nat.mul_add, ← Nat.mul_assoc]
    generalize ms_clamp freq * (pll_freq / ms_clamp freq) = TA at hdm ⊢
    generalize ms_clamp freq * ms_fixed_b freq pll_freq = TB at hle ⊢
    omega
  · have hdm : ms_clamp freq * (pll_freq / ms_clamp freq) + pll_freq % ms_clamp freq = pll_freq :=
      Nat.div_add_mod _ _
    have hlt : pll_freq % ms_clamp freq * 1000000
        < ms_clamp freq * ms_fixed_b freq pll_freq + ms_clamp freq := by
      rw [hb]
      have := Nat.lt_mul_div_succ (pll_freq % ms_clamp freq * 1000000) hpos
      rw [Nat.mul_add, Nat.mul_one] at this
      exact this
    rw [Nat.mul_add, Nat.mul_add, ← Nat.mul_assoc, Nat.mul_one]
    generalize ms_clamp freq * (pll_freq / ms_clamp freq) = TA at hdm ⊢
    generalize ms_clamp freq * ms_fixed_b freq pll_freq = TB at hlt ⊢
    omega

/-- Claim C24, instance: target `1400000000` (14 MHz at the x100 scale) with
the PLL at `80000000000`, where `a = 57`. -/
theorem multisynth_calc_fixed_error_witness :
    (60000000000 ≤ 80000000000 ∧ 80000000000 ≤ 90000000000 ∧
      ms_clamp 1400000000 < 15000000000 ∧
      (6 ≤ 80000000000 / ms_clamp 1400000000 ∧ 80000000000 / ms_clamp 1400000000 ≤ 1800)) ∧
    (∃ b c,
      b = (80000000000 % ms_clamp 1400000000) * 1000000 / ms_clamp 1400000000 ∧
      c = (if b ≠ 0 then 1000000 else 1) ∧
      multisynth_calc 1400000000 80000000000
        = some (⟨128 * (80000000000 / ms_clamp 1400000000) + 128 * b / c - 512,
                 128 * b % c, c⟩,
                ms_clamp 1400000000) ∧
      ms_clamp 1400000000 * ((80000000000 / ms_clamp 1400000000) * 1000000 + b)
        ≤ 80000000000 * 1000000 ∧
      80000000000 * 1000000
        < ms_clamp 1400000000 * ((80000000000 / ms_clamp 1400000000) * 1000000 + b + 1)) :=
  ⟨by decide,
    multisynth_calc_fixed_error 1400000000 80000000000 (by decide) (by decide) (by decide)
      (by decide)⟩

/-- Claim C25: the packed fields encode the divider `a + b / c` exactly. For
`pll_calc` on any target (which it clamps to the VCO range) and any
correction, with `a = pll_a`, `b = pll_b` and `c = pll_c` the values the
function computed: `p3 = c`, `p2 < p3` and
`(p1 + 512) * p3 + p2 = 128 * (a * p3 + b)`. For `multisynth_calc` in fixed-PLL
mode with the PLL frequency in `[60000000000, 90000000000]` and the clamped
target below the divide-by-4 threshold, with `a = ms_fixed_a` and
`b = ms_fixed_b`: `p3` is `10^6` if `b ≠ 0`, else 1, `p2 < p3` and the same
identity holds. The identities are over the natural numbers, so no reduction
modulo `2^32` takes effect. -/
theorem packed_fields_encode_divider (freq : Nat) (corr : Int) (ms_freq pll_freq : Nat)
    (hplo : 60000000000 ≤ pll_freq) (hphi : pll_freq ≤ 90000000000)
    (ht : ms_clamp ms_freq < 15000000000) :
    ((pll_calc SI5351_XTAL_FREQ freq corr false).1.p3
        = pll_c (corrected_ref SI5351_XTAL_FREQ corr) freq false ∧
      (pll_calc SI5351_XTAL_FREQ freq corr false).1.p2
        < (pll_calc SI5351_XTAL_FREQ freq corr false).1.p3 ∧
      ((pll_calc SI5351_XTAL_FREQ freq corr false).1.p1 + 512)
          * (pll_calc SI5351_XTAL_FREQ freq corr false).1.p3
        + (pll_calc SI5351_XTAL_FREQ freq corr false).1.p2
        = 128 * (pll_a (corrected_ref SI5351_XTAL_FREQ corr) freq
                  * (pll_calc SI5351_XTAL_FREQ freq corr false).1.p3
                + pll_b (corrected_ref SI5351_XTAL_FREQ corr) freq)) ∧
    ∃ fields ret, multisynth_calc ms_freq pll_freq = some (fields, ret) ∧
      fields.p3 = (if ms_fixed_b ms_freq pll_freq ≠ 0 then 1000000 else 1) ∧
      fields.p2 < fields.p3 ∧
      (fields.p1 + 512) * fields.p3 + fields.p2
        = 128 * (ms_fixed_a ms_freq pll_freq * fields.p3 + ms_fixed_b ms_freq pll_freq) := by
  constructor
  · have hr := corrected_ref_bounds corr
    have ha := pll_a_eq _ freq hr.1 hr.2
    have hc := pll_c_cases (corrected_ref SI5351_XTAL_FREQ corr) freq
    have hcpos : 0 < pll_c (corrected_ref SI5351_XTAL_FREQ corr) freq false := by
      rcases hc with h | ⟨h, _⟩ <;> omega
    rw [pll_calc_eq]
    simp only
    have := pack_identity (pll_a (corrected_ref SI5351_XTAL_FREQ corr) freq)
      (pll_b (corrected_ref SI5351_XTAL_FREQ corr) freq) _ (by omega) hcpos
    exact ⟨trivial, this.1, this.2⟩
  · obtain ⟨ha, _, _, h4, _, _, _⟩ := ms_fixed_ratio ms_freq pll_freq hplo hphi
    have he := multisynth_calc_fixed_eq ms_freq pll_freq hplo hphi ht
    have hcpos : 0 < (if ms_fixed_b ms_freq pll_freq ≠ 0 then 1000000 else 1) := by
      split_ifs <;> omega
    have := pack_identity (pll_freq / ms_clamp ms_freq) (ms_fixed_b ms_freq pll_freq) _
      (h4 ht) hcpos
    refine ⟨_, _, he, rfl, this.1, ?_⟩
    rw [ha]
    exact this.2

/-- Claim C25, instance: PLL target `61250000000` without correction, and
multisynth target `1400000000` with the PLL at `80000000000`. -/
theorem packed_fields_encode_divider_witness :
    (60000000000 ≤ 80000000000 ∧ 80000000000 ≤ 90000000000 ∧
      ms_clamp 1400000000 < 15000000000) ∧
    (((pll_calc SI5351_XTAL_FREQ 61250000000 0 false).1.p3
        = pll_c (corrected_ref SI5351_XTAL_FREQ 0) 61250000000 false ∧
      (pll_calc SI5351_XTAL_FREQ 61250000000 0 false).1.p2
        < (pll_calc SI5351_XTAL_FREQ 61250000000 0 false).1.p3 ∧
      ((pll_calc SI5351_XTAL_FREQ 61250000000 0 false).1.p1 + 512)
          * (pll_calc SI5351_XTAL_FREQ 61250000000 0 false).1.p3
        + (pll_calc SI5351_XTAL_FREQ 61250000000 0 false).1.p2
        = 128 * (pll_a (corrected_ref SI5351_XTAL_FREQ 0) 61250000000
                  * (pll_calc SI5351_XTAL_FREQ 61250000000 0 false).1.p3
                + pll_b (corrected_ref SI5351_XTAL_FREQ 0) 61250000000)) ∧
    ∃ fields ret, multisynth_calc 1400000000 80000000000 = some (fields, ret) ∧
      fields.p3 = (if ms_fixed_b 1400000000 80000000000 ≠ 0 then 1000000 else 1) ∧
      fields.p2 < fields.p3 ∧
      (fields.p1 + 512) * fields.p3 + fields.p2
        = 128 * (ms_fixed_a 1400000000 80000000000 * fields.p3
                  + ms_fixed_b 1400000000 80000000000)) :=
  ⟨by decide,
    packed_fields_encode_divider 61250000000 0 1400000000 80000000000 (by decide) (by decide)
      (by decide)⟩

/-- Claim C26: the parameter block is a lossless encoding of the fields. For
`p1 < 2^18`, `p2 < 2^20` and `p3 < 2^20`, the eight bytes that `set_pll` builds,
and the eight bytes that `set_ms` builds whatever byte `v` it read from the
third register (it keeps the bits of `v` above the low two in byte 2), decode
to `(p1, p2, p3)` under
`p3 = ((byte5 & 0xF0) << 12) | (byte0 << 8) | byte1`,
`p1 = ((byte2 & 0x03) << 16) | (byte3 << 8) | byte4`,
`p2 = ((byte5 & 0x0F) << 16) | (byte6 << 8) | byte7`. -/
theorem param_block_lossless (p1 p2 p3 v : Nat) (h1 : p1 < 2 ^ 18) (h2 : p2 < 2 ^ 20) (h3 : p3 < 2 ^ 20) :
    decode_params (pll_params ⟨p1, p2, p3⟩) = ⟨p1, p2, p3⟩ ∧
    decode_params (ms_params ⟨p1, p2, p3⟩ (clear8 (v % 256) 0x03)) = ⟨p1, p2, p3⟩ := by
  norm_num at h1 h2 h3
  obtain ⟨e1, _, _⟩ := param_bytes p1 p2 p3 h1 h2 h3
  constructor
  · exact decode_block p1 p2 p3 _ h1 h2 h3 (by rw [e1, and_3]; omega)
  · refine decode_block p1 p2 p3 _ h1 h2 h3 ?_
    have := ms_byte2_low ⟨v % 256, Nat.mod_lt _ (by norm_num)⟩ ⟨p1 / 65536, by omega⟩
    simp only at this
    rw [e1]
    exact this

/-- Claim C26, instance: `p1 = 0x2ABCD`, `p2 = 0xF1234`, `p3 = 1000000`, and
`0xFF` read from the third register. -/
theorem param_block_lossless_witness :
    (175053 < 2 ^ 18 ∧ 987700 < 2 ^ 20 ∧ 1000000 < 2 ^ 20) ∧
    (decode_params (pll_params ⟨175053, 987700, 1000000⟩) = ⟨175053, 987700, 1000000⟩ ∧
      decode_params (ms_params ⟨175053, 987700, 1000000⟩ (clear8 (255 % 256) 0x03))
        = ⟨175053, 987700, 1000000⟩) :=
  ⟨by decide,
    param_block_lossless 175053 987700 1000000 255 (by decide) (by decide) (by decide)⟩

/-- Claim C27, failing input and extent. After `init` and
`set_pll(3, SI5351_PLLA)` channel 0 is assigned to PLL A, whose cached
frequency is 3, and `set_freq(20000000000, 0)`, a target above the
divide-by-4 threshold, has no result: `multisynth_calc` divides by zero at
line 385. In general `set_freq` has no result exactly when the cached
frequency of the PLL assigned to `clk` is one of 1 to 5. In every other state
it returns `set_ms` applied with `int_mode = 0` and `div_by_4 = 0` to the
fields of `multisynth_calc`, which are `(0, 0, 1)` when the target after the
output divider is at or above the divide-by-4 threshold, and for `clk ≤ 2`
the DIVBY4 bits (bits 3:2) of register `44 + 8 * clk` and the integer-mode
bit (bit 6) of register `16 + clk` are then clear. -/
theorem set_freq_mode_bits_unless_undefined (freq clk : Nat) (s : Driver) :
    ((set_pll 3 SI5351_PLLA (init blank)).pll_assignment 0 = SI5351_PLLA ∧
      (set_pll 3 SI5351_PLLA (init blank)).plla_freq = 3 ∧
      15000000000 ≤ ms_clamp (select_r_div 20000000000).2 ∧
      set_freq 20000000000 0 (set_pll 3 SI5351_PLLA (init blank)) = none) ∧
    (set_freq freq clk s = none ↔
      1 ≤ (if s.pll_assignment clk = SI5351_PLLA then s.plla_freq else s.pllb_freq) ∧
      (if s.pll_assignment clk = SI5351_PLLA then s.plla_freq else s.pllb_freq) ≤ 5) ∧
    (∀ ms,
      multisynth_calc (select_r_div freq).2
        (if s.pll_assignment clk = SI5351_PLLA then s.plla_freq else s.pllb_freq) = some ms →
      set_freq freq clk s = some (set_ms clk ms.1 0 (select_r_div freq).1 0 s) ∧
      (15000000000 ≤ ms_clamp (select_r_div freq).2 → ms.1 = ⟨0, 0, 1⟩)) ∧
    (clk ≤ 2 → ∀ t, set_freq freq clk s = some t →
      t.regs (44 + 8 * clk) &&& SI5351_OUTPUT_CLK_DIVBY4 = 0 ∧
      t.regs (16 + clk) &&& SI5351_CLK_INTEGER_MODE = 0) := by
  have hset : ∀ (f c : Nat) (d : Driver),
      set_freq f c d
        = (multisynth_calc (select_r_div f).2
            (if d.pll_assignment c = SI5351_PLLA then d.plla_freq else d.pllb_freq)).map
          (fun ms => set_ms c ms.1 0 (select_r_div f).1 0 d) := by
    intro f c d
    simp only [set_freq]
    cases multisynth_calc (select_r_div f).2
      (if d.pll_assignment c = SI5351_PLLA then d.plla_freq else d.pllb_freq) <;> rfl
  refine ⟨⟨rfl, rfl, by decide, ?_⟩, ?_, ?_, ?_⟩
  · rw [hset, Option.map_eq_none']
    exact (multisynth_calc_none_iff _ _).2 ⟨by decide, by decide⟩
  · rw [hset, Option.map_eq_none']
    exact multisynth_calc_none_iff _ _
  · intro ms hms
    refine ⟨by rw [hset, hms]; rfl, fun hd => ?_⟩
    have hp : (if s.pll_assignment clk = SI5351_PLLA then s.plla_freq else s.pllb_freq) = 0 ∨
        6 ≤ (if s.pll_assignment clk = SI5351_PLLA then s.plla_freq else s.pllb_freq) := by
      by_contra hn
      have hnone := (multisynth_calc_none_iff (select_r_div freq).2
        (if s.pll_assignment clk = SI5351_PLLA then s.plla_freq else s.pllb_freq)).2
        ⟨by omega, by omega⟩
      rw [hnone] at hms
      exact Option.noConfusion hms
    obtain ⟨ret, h⟩ := multisynth_calc_divby4 (select_r_div freq).2 _ hd hp
    rw [h] at hms
    cases hms
    rfl
  · intro hclk t ht
    rw [hset] at ht
    obtain ⟨ms, _, rfl⟩ := Option.map_eq_some'.1 ht
    exact set_ms_mode_bits clk ms.1 (select_r_div freq).1 s hclk (select_r_div_exp_le freq)

/-- Claim C28: for every correction, and so for every `int32_t` one, the
corrected reference frequency of `pll_calc` lies in
`[2500000000 - 2^31, 2500000000 + 2^31 - 1]` and is not zero, so that the
divisions and the modulo by it are defined; for every target the ratio `a` is
the quotient of the clamped target by the reference and `12 ≤ a ≤ 255`, so
`512 ≤ 128 * a` and `p1 = 128 * a + 128 * b / c - 512` is computed without
wrapping below zero. -/
theorem pll_calc_reference_nonzero (freq : Nat) (corr : Int) :
    2500000000 - 2 ^ 31 ≤ corrected_ref SI5351_XTAL_FREQ corr ∧
    corrected_ref SI5351_XTAL_FREQ corr ≤ 2500000000 + 2 ^ 31 - 1 ∧
    corrected_ref SI5351_XTAL_FREQ corr ≠ 0 ∧
    pll_a (corrected_ref SI5351_XTAL_FREQ corr) freq
      = pll_clamp freq / corrected_ref SI5351_XTAL_FREQ corr ∧
    12 ≤ pll_a (corrected_ref SI5351_XTAL_FREQ corr) freq ∧
    pll_a (corrected_ref SI5351_XTAL_FREQ corr) freq ≤ 255 ∧
    512 ≤ 128 * pll_a (corrected_ref SI5351_XTAL_FREQ corr) freq ∧
    (pll_calc SI5351_XTAL_FREQ freq corr false).1.p1
      = 128 * pll_a (corrected_ref SI5351_XTAL_FREQ corr) freq
        + 128 * pll_b (corrected_ref SI5351_XTAL_FREQ corr) freq
            / pll_c (corrected_ref SI5351_XTAL_FREQ corr) freq false
        - 512 := by
  have hr := corrected_ref_bounds corr
  have ha := pll_a_eq _ freq hr.1 hr.2
  refine ⟨by norm_num; exact hr.1, by norm_num; exact hr.2, by omega, ha.1, ha.2.1, ha.2.2,
    by omega, ?_⟩
  rw [pll_calc_eq]

/-- Claim C29: for every target and every PLL frequency in
`[60000000000, 90000000000]`, `multisynth_calc` in fixed-PLL mode returns a
result and nothing wraps: the clamped target and the target after the ratio
adjustment are not zero, `a = pll_freq / t` for the clamped target `t` lies in
`[2, 1800]`, `b < 1000000`, the fields satisfy `p1 ≤ 262143`, `p2 ≤ 1048575`
and `1 ≤ p3 ≤ 1048575`, and below the divide-by-4 threshold `a ≥ 4`, so
`512 ≤ 128 * a` and `p1 = 128 * a + 128 * b / p3 - 512` without wrapping
below zero. -/
theorem multisynth_calc_fixed_total (freq pll_freq : Nat)
    (hlo : 60000000000 ≤ pll_freq) (hhi : pll_freq ≤ 90000000000) :
    ms_clamp freq ≠ 0 ∧ ms_adjust freq pll_freq ≠ 0 ∧
    ms_fixed_a freq pll_freq = pll_freq / ms_clamp freq ∧
    2 ≤ pll_freq / ms_clamp freq ∧ pll_freq / ms_clamp freq ≤ 1800 ∧
    ms_fixed_b freq pll_freq < 1000000 ∧
    (∃ fields ret, multisynth_calc freq pll_freq = some (fields, ret) ∧
      fields.p1 ≤ 262143 ∧ fields.p2 ≤ 1048575 ∧ 1 ≤ fields.p3 ∧ fields.p3 ≤ 1048575) ∧
    (ms_clamp freq < 15000000000 →
      4 ≤ ms_fixed_a freq pll_freq ∧
      512 ≤ 128 * ms_fixed_a freq pll_freq ∧
      ∃ fields ret, multisynth_calc freq pll_freq = some (fields, ret) ∧
        fields.p1 = 128 * ms_fixed_a freq pll_freq
          + 128 * ms_fixed_b freq pll_freq / fields.p3 - 512) := by
  have ht := ms_clamp_bounds freq
  obtain ⟨ha, h2, h1800, h4, hadj, hpos, hle⟩ := ms_fixed_ratio freq pll_freq hlo hhi
  have hb := ms_fixed_b_eq freq pll_freq hlo hhi
  refine ⟨by omega, by omega, ha, h2, h1800, hb.2, ?_, ?_⟩
  · by_cases hd : 15000000000 ≤ ms_clamp freq
    · obtain ⟨ret, h⟩ := multisynth_calc_divby4 freq pll_freq hd (Or.inr (by omega))
      exact ⟨_, _, h, by norm_num, by norm_num, by norm_num, by norm_num⟩
    · have he := multisynth_calc_fixed_eq freq pll_freq hlo hhi (by omega)
      refine ⟨_, _, he, ?_, ?_, ?_, ?_⟩
      · have h128 : 128 * ms_fixed_b freq pll_freq
            / (if ms_fixed_b freq pll_freq ≠ 0 then 1000000 else 1)
            ≤ 128 * ms_fixed_b freq pll_freq := Nat.div_le_self _ _
        simp only
        split_ifs at h128 ⊢ <;> omega
      · simp only
        split_ifs <;> omega
      · simp only
        split_ifs <;> omega
      · simp only
        split_ifs <;> omega
  · intro hlt
    have he := multisynth_calc_fixed_eq freq pll_freq hlo hhi hlt
    have h4 := h4 hlt
    refine ⟨by omega, by omega, _, _, he, ?_⟩
    rw [ha]

/-- Claim C29, instance: target `1400000000` with the PLL at `80000000000`. -/
theorem multisynth_calc_fixed_total_witness :
    (60000000000 ≤ 80000000000 ∧ 80000000000 ≤ 90000000000) ∧
    (ms_clamp 1400000000 ≠ 0 ∧ ms_adjust 1400000000 80000000000 ≠ 0 ∧
    ms_fixed_a 1400000000 80000000000 = 80000000000 / ms_clamp 1400000000 ∧
    2 ≤ 80000000000 / ms_clamp 1400000000 ∧ 80000000000 / ms_clamp 1400000000 ≤ 1800 ∧
    ms_fixed_b 1400000000 80000000000 < 1000000 ∧
    (∃ fields ret, multisynth_calc 1400000000 80000000000 = some (fields, ret) ∧
      fields.p1 ≤ 262143 ∧ fields.p2 ≤ 1048575 ∧ 1 ≤ fields.p3 ∧ fields.p3 ≤ 1048575) ∧
    (ms_clamp 1400000000 < 15000000000 →
      4 ≤ ms_fixed_a 1400000000 80000000000 ∧
      512 ≤ 128 * ms_fixed_a 1400000000 80000000000 ∧
      ∃ fields ret, multisynth_calc 1400000000 80000000000 = some (fields, ret) ∧
        fields.p1 = 128 * ms_fixed_a 1400000000 80000000000
          + 128 * ms_fixed_b 1400000000 80000000000 / fields.p3 - 512)) :=
  ⟨by decide, multisynth_calc_fixed_total 1400000000 80000000000 (by decide) (by decide)⟩

end Si5351

namespace I2C

/-! ## Auxiliary facts: the transport -/

/-- The loop over the data bytes is the run of one `sendByte` call per byte. -/
theorem sendBytes_eq_run (k : TwiBits) (TWSR : Nat → Nat) (data : List Nat) (s : Twi) :
    sendBytes k TWSR data s = run k TWSR (data.map Call.sendByte) s := by
  induction data generalizing s with
  | nil => rfl
  | cons d ds ih =>
    simp only [sendBytes, List.map_cons, run, List.foldl_cons, exec]
    exact ih _

/-- Running a concatenation is running the parts in order. -/
theorem run_append (k : TwiBits) (TWSR : Nat → Nat) (xs ys : List Call) (s : Twi) :
    run k TWSR (xs ++ ys) s = run k TWSR ys (run k TWSR xs s) := by
  simp only [run, List.foldl_append]

/-- An acknowledged `sendByte` writes `TWDR` and `TWCR` once each. -/
theorem sendByte_ack (k : TwiBits) (TWSR : Nat → Nat) (d : Nat) (s : Twi)
    (h : TWSR s.waits &&& 0xF8 = MT_DATA_ACK) :
    (sendByte k TWSR d s).2.log
        = s.log ++ [TwiWrite.TWDR d, TwiWrite.TWCR ((1 <<< k.TWINT) ||| (1 <<< k.TWEN))] ∧
      (sendByte k TWSR d s).2.waits = s.waits + 1 := by
  simp [sendByte, TWI_STATUS, setTWCR, setTWDR, waited, h]

/-- The register writes of the data loop when every byte is acknowledged. -/
theorem sendBytes_ack (k : TwiBits) (TWSR : Nat → Nat) (data : List Nat) (s : Twi)
    (h : ∀ i, i < data.length → TWSR (s.waits + i) &&& 0xF8 = MT_DATA_ACK) :
    (sendBytes k TWSR data s).log
        = s.log ++ data_writes ((1 <<< k.TWINT) ||| (1 <<< k.TWEN)) data ∧
      (sendBytes k TWSR data s).waits = s.waits + data.length := by
  induction data generalizing s with
  | nil => simp [sendBytes, data_writes]
  | cons d ds ih =>
    have h0 := sendByte_ack k TWSR d s (by simpa using h 0 (by simp))
    have hrest : ∀ i, i < ds.length →
        TWSR ((sendByte k TWSR d s).2.waits + i) &&& 0xF8 = MT_DATA_ACK := by
      intro i hi
      rw [h0.2]
      have := h (i + 1) (by simp; omega)
      rw [show s.waits + 1 + i = s.waits + (i + 1) by omega]
      exact this
    obtain ⟨hl, hw⟩ := ih (sendByte k TWSR d s).2 hrest
    simp only [sendBytes, data_writes, List.length_cons]
    rw [hl, hw, h0.1, h0.2]
    constructor
    · simp
    · omega

/-- When the hardware reports the expected status after every transfer, the
register writes of the multi-byte `write` are: one start command, the address
and the register address each followed by a send command, the data bytes each
followed by a send command, and one stop command. -/
theorem writeBytes_log_of_ack (k : TwiBits) (TWSR : Nat → Nat)
    (address registerAddress : Nat) (data : List Nat) (s : Twi)
    (hs : TWSR s.waits &&& 0xF8 = START ∨ TWSR s.waits &&& 0xF8 = REPEATED_START)
    (ha : TWSR (s.waits + 1) &&& 0xF8 = MT_SLA_ACK ∨ TWSR (s.waits + 1) &&& 0xF8 = MR_SLA_ACK)
    (hd : ∀ i, i ≤ data.length → TWSR (s.waits + 2 + i) &&& 0xF8 = MT_DATA_ACK) :
    (writeBytes k TWSR address registerAddress data s).log = s.log ++
      [TwiWrite.TWCR ((1 <<< k.TWINT) ||| (1 <<< k.TWSTA) ||| (1 <<< k.TWEN)),
       TwiWrite.TWDR (SLA_W address), TwiWrite.TWCR ((1 <<< k.TWINT) ||| (1 <<< k.TWEN)),
       TwiWrite.TWDR registerAddress, TwiWrite.TWCR ((1 <<< k.TWINT) ||| (1 <<< k.TWEN))]
      ++ data_writes ((1 <<< k.TWINT) ||| (1 <<< k.TWEN)) data
      ++ [TwiWrite.TWCR ((1 <<< k.TWINT) ||| (1 <<< k.TWEN) ||| (1 <<< k.TWSTO))] := by
  have h1 : (start k TWSR s).2 = waited (setTWCR
      ((1 <<< k.TWINT) ||| (1 <<< k.TWSTA) ||| (1 <<< k.TWEN)) s) := by
    simp only [start, TWI_STATUS, setTWCR]
    rw [if_pos hs]
  have h2 : ∀ t : Twi, t.waits = s.waits + 1 →
      (sendAddress k TWSR (SLA_W address) t).2 = waited (setTWCR
        ((1 <<< k.TWINT) ||| (1 <<< k.TWEN)) (setTWDR (SLA_W address) t)) := by
    intro t ht
    simp only [sendAddress, TWI_STATUS, setTWCR, setTWDR, ht]
    rw [if_pos ha]
  have h3 : ∀ t : Twi, t.waits = s.waits + 2 →
      (sendByte k TWSR registerAddress t).2 = waited (setTWCR
        ((1 <<< k.TWINT) ||| (1 <<< k.TWEN)) (setTWDR registerAddress t)) := by
    intro t ht
    have := hd 0 (Nat.zero_le _)
    simp only [sendByte, TWI_STATUS, setTWCR, setTWDR, ht]
    rw [if_pos (by simpa using this)]
  unfold writeBytes
  simp only
  rw [h1, h2 _ (by simp [waited, setTWCR]), h3 _ (by simp [waited, setTWCR, setTWDR])]
  have hb := sendBytes_ack k TWSR data
    (waited (setTWCR ((1 <<< k.TWINT) ||| (1 <<< k.TWEN)) (setTWDR registerAddress
      (waited (setTWCR ((1 <<< k.TWINT) ||| (1 <<< k.TWEN)) (setTWDR (SLA_W address)
        (waited (setTWCR ((1 <<< k.TWINT) ||| (1 <<< k.TWSTA) ||| (1 <<< k.TWEN)) s))))))))
    (by
      intro i hi
      have := hd (i + 1) (by omega)
      simp only [waited, setTWCR, setTWDR]
      rw [show s.waits + 1 + 1 + 1 + i = s.waits + 2 + (i + 1) by omega]
      exact this)
  have hstop : ∀ t : Twi, (stop k t).2.log = t.log ++
      [TwiWrite.TWCR ((1 <<< k.TWINT) ||| (1 <<< k.TWEN) ||| (1 <<< k.TWSTO))] := fun _ => rfl
  rw [hstop, hb.1]
  simp [waited, setTWCR, setTWDR]

/-! ## Claims C19 and C20 -/

/-- Claim C19: for every device address, register address and list of at most
255 data bytes, and whatever statuses the hardware reports, the multi-byte
`write` is the run of the call sequence start, `sendAddress(SLA_W(address))`,
`sendByte(registerAddress)`, `sendByte` of each data byte in order, stop: the
sequence has `n + 4` calls, one start and one stop. When every transfer is
acknowledged, the register writes are one start command, the bytes in that
order and one stop command. The single-byte `write` is the case of a
one-element list, and `Si5351::write_reg` is `write_bulk` with one byte. -/
theorem write_transaction (k : TwiBits) (TWSR : Nat → Nat)
    (address registerAddress : Nat) (data : List Nat) (s : Twi)
    (_hlen : data.length ≤ 255) :
    writeBytes k TWSR address registerAddress data s
      = run k TWSR (write_sequence address registerAddress data) s ∧
    (write_sequence address registerAddress data).length = data.length + 4 ∧
    (write_sequence address registerAddress data).count Call.start = 1 ∧
    (write_sequence address registerAddress data).count Call.stop = 1 ∧
    ((TWSR s.waits &&& 0xF8 = START ∨ TWSR s.waits &&& 0xF8 = REPEATED_START) →
      (TWSR (s.waits + 1) &&& 0xF8 = MT_SLA_ACK ∨ TWSR (s.waits + 1) &&& 0xF8 = MR_SLA_ACK) →
      (∀ i, i ≤ data.length → TWSR (s.waits + 2 + i) &&& 0xF8 = MT_DATA_ACK) →
      (writeBytes k TWSR address registerAddress data s).log = s.log ++
        [TwiWrite.TWCR ((1 <<< k.TWINT) ||| (1 <<< k.TWSTA) ||| (1 <<< k.TWEN)),
         TwiWrite.TWDR (SLA_W address), TwiWrite.TWCR ((1 <<< k.TWINT) ||| (1 <<< k.TWEN)),
         TwiWrite.TWDR registerAddress, TwiWrite.TWCR ((1 <<< k.TWINT) ||| (1 <<< k.TWEN))]
        ++ data_writes ((1 <<< k.TWINT) ||| (1 <<< k.TWEN)) data
        ++ [TwiWrite.TWCR ((1 <<< k.TWINT) ||| (1 <<< k.TWEN) ||| (1 <<< k.TWSTO))]) ∧
    (∀ d, write k TWSR address registerAddress d s
      = writeBytes k TWSR address registerAddress [d] s) ∧
    (∀ (addr d : Nat) (t : Si5351.Driver),
      Si5351.write_reg addr d t = Si5351.write_bulk addr [d] t) := by
  refine ⟨?_, ?_, ?_, ?_, writeBytes_log_of_ack k TWSR address registerAddress data s,
    fun d => rfl, fun addr d t => rfl⟩
  · unfold writeBytes write_sequence
    simp only [run_append, sendBytes_eq_run]
    rfl
  · simp [write_sequence]
  · simp [write_sequence, List.count_cons, List.count_eq_zero]
  · simp [write_sequence, List.count_cons, List.count_eq_zero]

/-- Claim C19, instance: two data bytes to register 26 of the device at `0x60`,
with every status reported as `MT_DATA_ACK`. -/
theorem write_transaction_witness :
    [1, 2].length ≤ 255 ∧
    (writeBytes atmega328p (fun _ => MT_DATA_ACK) 0x60 26 [1, 2] ⟨0, 0, 0, []⟩
        = run atmega328p (fun _ => MT_DATA_ACK) (write_sequence 0x60 26 [1, 2]) ⟨0, 0, 0, []⟩ ∧
      (write_sequence 0x60 26 [1, 2]).length = [1, 2].length + 4 ∧
      (write_sequence 0x60 26 [1, 2]).count Call.start = 1 ∧
      (write_sequence 0x60 26 [1, 2]).count Call.stop = 1 ∧
      (((fun _ => MT_DATA_ACK) (0 : Nat) &&& 0xF8 = START ∨
          (fun _ => MT_DATA_ACK) (0 : Nat) &&& 0xF8 = REPEATED_START) →
        ((fun _ => MT_DATA_ACK) (0 + 1) &&& 0xF8 = MT_SLA_ACK ∨
          (fun _ => MT_DATA_ACK) (0 + 1) &&& 0xF8 = MR_SLA_ACK) →
        (∀ i, i ≤ [1, 2].length → (fun _ => MT_DATA_ACK) (0 + 2 + i) &&& 0xF8 = MT_DATA_ACK) →
        (writeBytes atmega328p (fun _ => MT_DATA_ACK) 0x60 26 [1, 2] ⟨0, 0, 0, []⟩).log
          = ([] : List TwiWrite) ++
          [TwiWrite.TWCR ((1 <<< atmega328p.TWINT) ||| (1 <<< atmega328p.TWSTA)
             ||| (1 <<< atmega328p.TWEN)),
           TwiWrite.TWDR (SLA_W 0x60),
           TwiWrite.TWCR ((1 <<< atmega328p.TWINT) ||| (1 <<< atmega328p.TWEN)),
           TwiWrite.TWDR 26,
           TwiWrite.TWCR ((1 <<< atmega328p.TWINT) ||| (1 <<< atmega328p.TWEN))]
          ++ data_writes ((1 <<< atmega328p.TWINT) ||| (1 <<< atmega328p.TWEN)) [1, 2]
          ++ [TwiWrite.TWCR ((1 <<< atmega328p.TWINT) ||| (1 <<< atmega328p.TWEN)
             ||| (1 <<< atmega328p.TWSTO))]) ∧
      (∀ d, write atmega328p (fun _ => MT_DATA_ACK) 0x60 26 d ⟨0, 0, 0, []⟩
        = writeBytes atmega328p (fun _ => MT_DATA_ACK) 0x60 26 [d] ⟨0, 0, 0, []⟩) ∧
      (∀ (addr d : Nat) (t : Si5351.Driver),
        Si5351.write_reg addr d t = Si5351.write_bulk addr [d] t)) :=
  ⟨by decide,
    write_transaction atmega328p (fun _ => MT_DATA_ACK) 0x60 26 [1, 2] ⟨0, 0, 0, []⟩
      (by decide)⟩

/-- Claim C20: with the status `TWSR & 0xF8` as an input, `sendAddress` returns
0 on `MT_SLA_ACK` or `MR_SLA_ACK` and `sendByte` returns 0 on `MT_DATA_ACK`,
writing nothing after the transfer; on a NACK status (`MT_SLA_NACK` or
`MR_SLA_NACK`, respectively `MT_DATA_NACK`) they return that status and the
only further register write is the one of `stop`; on every other status they
return the status and the further writes are the two of `lockUp`. -/
theorem send_status_handling (k : TwiBits) (TWSR : Nat → Nat) (b : Nat) (s : Twi) :
    ((sendAddress k TWSR b s).1
        = (if TWSR s.waits &&& 0xF8 = MT_SLA_ACK ∨ TWSR s.waits &&& 0xF8 = MR_SLA_ACK then 0
           else TWSR s.waits &&& 0xF8) ∧
      (sendAddress k TWSR b s).2.log
        = s.log ++ [TwiWrite.TWDR b, TwiWrite.TWCR ((1 <<< k.TWINT) ||| (1 <<< k.TWEN))] ++
          (if TWSR s.waits &&& 0xF8 = MT_SLA_ACK ∨ TWSR s.waits &&& 0xF8 = MR_SLA_ACK then []
           else if TWSR s.waits &&& 0xF8 = MT_SLA_NACK ∨ TWSR s.waits &&& 0xF8 = MR_SLA_NACK
             then [TwiWrite.TWCR ((1 <<< k.TWINT) ||| (1 <<< k.TWEN) ||| (1 <<< k.TWSTO))]
           else [TwiWrite.TWCR 0, TwiWrite.TWCR ((1 <<< k.TWEN) ||| (1 <<< k.TWEA))])) ∧
    ((sendByte k TWSR b s).1
        = (if TWSR s.waits &&& 0xF8 = MT_DATA_ACK then 0 else TWSR s.waits &&& 0xF8) ∧
      (sendByte k TWSR b s).2.log
        = s.log ++ [TwiWrite.TWDR b, TwiWrite.TWCR ((1 <<< k.TWINT) ||| (1 <<< k.TWEN))] ++
          (if TWSR s.waits &&& 0xF8 = MT_DATA_ACK then []
           else if TWSR s.waits &&& 0xF8 = MT_DATA_NACK
             then [TwiWrite.TWCR ((1 <<< k.TWINT) ||| (1 <<< k.TWEN) ||| (1 <<< k.TWSTO))]
           else [TwiWrite.TWCR 0, TwiWrite.TWCR ((1 <<< k.TWEN) ||| (1 <<< k.TWEA))])) := by
  refine ⟨⟨?_, ?_⟩, ⟨?_, ?_⟩⟩
  · simp only [sendAddress, TWI_STATUS, setTWCR, setTWDR]
    split_ifs <;> rfl
  · simp only [sendAddress, TWI_STATUS, setTWCR, setTWDR, waited, stop, lockUp]
    split_ifs <;> simp
  · simp only [sendByte, TWI_STATUS, setTWCR, setTWDR]
    split_ifs <;> rfl
  · simp only [sendByte, TWI_STATUS, setTWCR, setTWDR, waited, stop, lockUp]
    split_ifs <;> simp

/-! ## Claims C21 to C23 -/

/-- Claim C21, as stated, fails: with the status `0x00`, which is neither `START`
nor `REPEATED_START`, `start` returns the status unchanged, and that is 0. -/
theorem start_status_zero_returns_zero :
    (start atmega328p (fun _ => 0) ⟨0, 0, 0, []⟩).1 = 0 ∧
    TWI_STATUS (fun _ => 0) ⟨0, 0, 0, []⟩ = 0 ∧
    ¬ ((start atmega328p (fun _ => 0) ⟨0, 0, 0, []⟩).1 = 0 ↔
        (TWI_STATUS (fun _ => 0) ⟨0, 0, 0, []⟩ = START ∨
         TWI_STATUS (fun _ => 0) ⟨0, 0, 0, []⟩ = REPEATED_START)) := by
  decide

/-- Claim C21, amended: with the status `TWSR & 0xF8` as an input, `start`
returns 0 on `START` or `REPEATED_START` and the status itself otherwise, so
it returns 0 exactly on `START`, `REPEATED_START` and the status `0x00`; its
only register write is the start command `TWINT|TWSTA|TWEN`, followed on
`LOST_ARBTRTN`, and on no other status, by the two writes of `lockUp`, which
leave `TWCR` at the value `TWEN|TWEA` that `begin` sets. -/
theorem start_status_handling (k : TwiBits) (TWSR : Nat → Nat) (s : Twi) :
    (start k TWSR s).1
      = (if TWSR s.waits &&& 0xF8 = START ∨ TWSR s.waits &&& 0xF8 = REPEATED_START then 0
         else TWSR s.waits &&& 0xF8) ∧
    ((start k TWSR s).1 = 0 ↔
      (TWSR s.waits &&& 0xF8 = START ∨ TWSR s.waits &&& 0xF8 = REPEATED_START ∨
        TWSR s.waits &&& 0xF8 = 0)) ∧
    (start k TWSR s).2.log
      = s.log ++ [TwiWrite.TWCR ((1 <<< k.TWINT) ||| (1 <<< k.TWSTA) ||| (1 <<< k.TWEN))] ++
        (if TWSR s.waits &&& 0xF8 = LOST_ARBTRTN
          then [TwiWrite.TWCR 0, TwiWrite.TWCR ((1 <<< k.TWEN) ||| (1 <<< k.TWEA))]
          else []) ∧
    (start k TWSR s).2.TWCR
      = (if TWSR s.waits &&& 0xF8 = LOST_ARBTRTN then (begin k s).TWCR
         else (1 <<< k.TWINT) ||| (1 <<< k.TWSTA) ||| (1 <<< k.TWEN)) ∧
    (begin k s).TWCR = (1 <<< k.TWEN) ||| (1 <<< k.TWEA) := by
  refine ⟨?_, ?_, ?_, ?_, rfl⟩
  · simp only [start, TWI_STATUS, setTWCR]
    split_ifs <;> rfl
  · simp only [start, TWI_STATUS, setTWCR, START, REPEATED_START, LOST_ARBTRTN]
    split_ifs with h1 h2
    · simp only [true_iff]
      rcases h1 with h | h
      · exact Or.inl h
      · exact Or.inr (Or.inl h)
    · simp_all
    · simp_all
  · simp only [start, TWI_STATUS, setTWCR, waited, lockUp, START, REPEATED_START, LOST_ARBTRTN]
    split_ifs <;> simp_all
  · simp only [start, TWI_STATUS, setTWCR, waited, lockUp, begin, START, REPEATED_START,
      LOST_ARBTRTN]
    split_ifs <;> simp_all

/-- Claim C22, as stated, fails: the address byte `SLA_W 0x60` has the read/write
bit clear, the status is `MR_SLA_ACK`, and `sendAddress` returns 0. -/
theorem sendAddress_ignores_direction :
    SLA_W 0x60 % 2 = 0 ∧
    TWI_STATUS (fun _ => MR_SLA_ACK) ⟨0, 0, 0, []⟩ = MR_SLA_ACK ∧
    (sendAddress atmega328p (fun _ => MR_SLA_ACK) (SLA_W 0x60) ⟨0, 0, 0, []⟩).1 = 0 ∧
    ¬ ((sendAddress atmega328p (fun _ => MR_SLA_ACK) (SLA_W 0x60) ⟨0, 0, 0, []⟩).1 = 0 ↔
        ((SLA_W 0x60 % 2 = 0 ∧ TWI_STATUS (fun _ => MR_SLA_ACK) ⟨0, 0, 0, []⟩ = MT_SLA_ACK) ∨
         (SLA_W 0x60 % 2 = 1 ∧ TWI_STATUS (fun _ => MR_SLA_ACK) ⟨0, 0, 0, []⟩ = MR_SLA_ACK)))
    := by
  decide

/-- Claim C22, amended: for a status other than `0x00`, `sendAddress` returns 0
if and only if the status is `MT_SLA_ACK` or `MR_SLA_ACK`, whatever the
read/write bit of the address byte: the returned value is the same for the
address byte with that bit flipped. -/
theorem sendAddress_success_iff (k : TwiBits) (TWSR : Nat → Nat) (b : Nat) (s : Twi)
    (hst : TWSR s.waits &&& 0xF8 ≠ 0) :
    ((sendAddress k TWSR b s).1 = 0 ↔
      (TWSR s.waits &&& 0xF8 = MT_SLA_ACK ∨ TWSR s.waits &&& 0xF8 = MR_SLA_ACK)) ∧
    (sendAddress k TWSR b s).1 = (sendAddress k TWSR (b ^^^ 1) s).1 := by
  constructor
  · simp only [sendAddress, TWI_STATUS, setTWCR, setTWDR]
    split_ifs with h1 h2 <;> simp_all
  · simp only [sendAddress, TWI_STATUS, setTWCR, setTWDR]
    split_ifs <;> rfl

/-- Claim C22, amended, instance: the address byte `SLA_W 0x60` with the status
`MT_SLA_ACK`. -/
theorem sendAddress_success_iff_witness :
    (fun _ => MT_SLA_ACK) (0 : Nat) &&& 0xF8 ≠ 0 ∧
    (((sendAddress atmega328p (fun _ => MT_SLA_ACK) (SLA_W 0x60) ⟨0, 0, 0, []⟩).1 = 0 ↔
        ((fun _ => MT_SLA_ACK) (0 : Nat) &&& 0xF8 = MT_SLA_ACK ∨
         (fun _ => MT_SLA_ACK) (0 : Nat) &&& 0xF8 = MR_SLA_ACK)) ∧
      (sendAddress atmega328p (fun _ => MT_SLA_ACK) (SLA_W 0x60) ⟨0, 0, 0, []⟩).1
        = (sendAddress atmega328p (fun _ => MT_SLA_ACK) (SLA_W 0x60 ^^^ 1) ⟨0, 0, 0, []⟩).1) :=
  ⟨by decide,
    sendAddress_success_iff atmega328p (fun _ => MT_SLA_ACK) (SLA_W 0x60) ⟨0, 0, 0, []⟩
      (by decide)⟩

/-- Claim C23, as stated, fails: on `MR_DATA_ACK` `receiveByte` returns `0x50`,
not 0; on `MR_DATA_NACK` its only register write is the receive command
`0x84`, without the write `0x94` of `stop`; and on the status `0xF8` it writes
nothing after the receive command either. -/
theorem receiveByte_data_ack_returns_status :
    TWI_STATUS (fun _ => MR_DATA_ACK) ⟨0, 0, 0, []⟩ = MR_DATA_ACK ∧
    (receiveByte atmega328p (fun _ => MR_DATA_ACK) ⟨0, 0, 0, []⟩).1 = 0x50 ∧
    (receiveByte atmega328p (fun _ => MR_DATA_ACK) ⟨0, 0, 0, []⟩).1 ≠ 0 ∧
    (receiveByte atmega328p (fun _ => MR_DATA_NACK) ⟨0, 0, 0, []⟩).2.log
      = [TwiWrite.TWCR 0x84] ∧
    (stop atmega328p ⟨0, 0, 0, []⟩).2.log = [TwiWrite.TWCR 0x94] ∧
    (receiveByte atmega328p (fun _ => 0xF8) ⟨0, 0, 0, []⟩).2.log = [TwiWrite.TWCR 0x84] := by
  decide

/-- Claim C23, amended: with the status `TWSR & 0xF8` as an input, `receiveByte`
returns the status unchanged whatever it is; its only register write is the
receive command `TWINT|TWEN`, followed on `LOST_ARBTRTN`, and on no other
status, by the two writes of `lockUp`. It never issues `stop`. -/
theorem receiveByte_status_handling (k : TwiBits) (TWSR : Nat → Nat) (s : Twi) :
    (receiveByte k TWSR s).1 = TWSR s.waits &&& 0xF8 ∧
    (receiveByte k TWSR s).2.log
      = s.log ++ [TwiWrite.TWCR ((1 <<< k.TWINT) ||| (1 <<< k.TWEN))] ++
        (if TWSR s.waits &&& 0xF8 = LOST_ARBTRTN
          then [TwiWrite.TWCR 0, TwiWrite.TWCR ((1 <<< k.TWEN) ||| (1 <<< k.TWEA))]
          else []) := by
  constructor
  · simp only [receiveByte, TWI_STATUS, setTWCR]
    split_ifs <;> rfl
  · simp only [receiveByte, TWI_STATUS, setTWCR, waited, lockUp]
    split_ifs <;> simp

end I2C
